import Mathlib

/-!
Verification of the drlang expression-language core (`src/drlang/language.py`,
`src/drlang/functions.py`) against its natural-language specification.

The Python source is shallowly embedded: Python values flowing through the
pipeline become the closed tagged union `DRL.Value`; Python exceptions become
`Except DRL.Err`; character-indexed scanning loops become fueled recursive
functions over the character list (fuel is always instantiated large enough
and only exists to make termination trivial).

Abstractions, stated once here and noted at the definitions involved:
* host IEEE-754 floats are modelled as exact rationals (no theorem below
  depends on rounding, infinities or NaN);
* `str.isalpha` / `isdigit` / `isalnum` are modelled on ASCII (no theorem
  below exercises non-ASCII identifier characters);
* reflection-based argument coercion (`convert_arg_types`) and the full
  builtin-function catalogue are outside every claim; the registry is
  modelled for the entries a theorem touches and raises the same
  `NameError` as the source for unknown names.
-/

namespace DRL

/-- The set of codepoints for which CPython `str.isspace()` is true. -/
def pyIsSpace (c : Char) : Bool :=
  let n := c.toNat
  (9 ≤ n && n ≤ 13) || (28 ≤ n && n ≤ 31) || n == 32 || n == 0x85 || n == 0xA0 ||
  n == 0x1680 || (0x2000 ≤ n && n ≤ 0x200A) || n == 0x2028 || n == 0x2029 ||
  n == 0x202F || n == 0x205F || n == 0x3000

/-- Python `str.isdigit()`, restricted to the ASCII digits the lexer meets. -/
def pyIsDigit (c : Char) : Bool := '0' ≤ c && c ≤ '9'

/-- Python `str.isalpha()`, restricted to ASCII letters. -/
def pyIsAlpha (c : Char) : Bool := ('a' ≤ c && c ≤ 'z') || ('A' ≤ c && c ≤ 'Z')

/-- Python `str.isalnum()`, restricted to ASCII. -/
def pyIsAlnum (c : Char) : Bool := pyIsAlpha c || pyIsDigit c

/-- Does `sub` occur as a contiguous run somewhere in `s`?  This is Python
string containment `sub in s` (the empty string is contained in anything). -/
def subAt : List Char → List Char → Bool
  | sub, [] => sub.isEmpty
  | sub, _c :: rest => sub.isPrefixOf (_c :: rest) || subAt sub rest

/-- Python `sub in s` on strings. -/
def pyInStr (sub s : String) : Bool := subAt sub.data s.data

/-- Python `str.strip()` (whitespace strip at both ends). -/
def pyStrip (s : String) : String :=
  String.mk (((s.data.dropWhile pyIsSpace).reverse.dropWhile pyIsSpace).reverse)

/-- Helper for `pySplit`: fueled scan; `sep` is nonempty so every step
consumes at least one character. -/
def pySplitAux (sep : List Char) : Nat → List Char → List Char → List (List Char)
  | 0, rest, cur => [cur ++ rest]
  | _fuel + 1, [], cur => [cur]
  | fuel + 1, c :: rest, cur =>
    if sep.isPrefixOf (c :: rest) then
      cur :: pySplitAux sep fuel ((c :: rest).drop sep.length) []
    else
      pySplitAux sep fuel rest (cur ++ [c])

/-- Python `s.split(sep)` for a nonempty separator (the only way the source
calls it; `DRLConfig.__init__` rejects an empty key delimiter). -/
def pySplit (s sep : String) : List String :=
  (pySplitAux sep.data (s.data.length + 1) s.data []).map String.mk

/-- Value of a nonempty all-ASCII-digit character run. -/
def digitsVal : List Char → Option Nat
  | [] => none
  | ds =>
    if ds.all pyIsDigit then
      some (ds.foldl (fun acc c => acc * 10 + (c.toNat - '0'.toNat)) 0)
    else none

/-- Python `int(s)` on a string: strip whitespace, optional sign, decimal
digits.  (CPython additionally allows underscores between digits and
non-ASCII digits; no path segment in the repository or the claims uses
either.)  `none` models the `ValueError`. -/
def pyToInt (s : String) : Option Int :=
  let t := ((s.data.dropWhile pyIsSpace).reverse.dropWhile pyIsSpace).reverse
  match t with
  | '-' :: ds => (digitsVal ds).map (fun n => -(n : Int))
  | '+' :: ds => (digitsVal ds).map (fun n => (n : Int))
  | ds => (digitsVal ds).map (fun n => (n : Int))

/-- A token produced by `tokenize` (language.py, class `Token`).  The
`type_` field keeps the source string tags; `behavior` is meaningful for
`REFERENCE` tokens only, exactly as in the source. -/
structure Token where
  type_ : String
  value : String
  behavior : String := "required"
deriving DecidableEq, Repr

/-- The parse structure produced by `parse_line`: Python mixes tokens,
plain strings (node markers, operator texts, function names) and nested
lists, so the embedding does too. -/
inductive PElem where
  | tok : Token → PElem
  | s : String → PElem
  | l : List PElem → PElem
deriving Repr

/-- The dynamic Python value flowing through the pipeline, as the closed
tagged union the spec asks for.  `float` carries an exact rational (see the
header note).  `raw` is the value `evaluate` returns on its final
`return parsed` fallthrough when handed a structure no other branch
matches; it is unreachable from `parse_line` output. -/
inductive Value where
  | none : Value
  | bool : Bool → Value
  | int : Int → Value
  | float : ℚ → Value
  | str : String → Value
  | list : List Value → Value
  | dict : List (String × Value) → Value
  | raw : PElem → Value
deriving Repr

/-- Python dict lookup on the (string-keyed) contexts the core receives. -/
def dictGet (d : List (String × Value)) (k : String) : Option Value :=
  match d.find? (fun kv => kv.1 == k) with
  | some kv => some kv.2
  | Option.none => Option.none

/-- Numeric view used by Python arithmetic and comparison: `bool` counts as
an integer, `int` and `float` by value. -/
def toRat : Value → Option ℚ
  | .bool b => some (if b then 1 else 0)
  | .int n => some (n : ℚ)
  | .float q => some q
  | _ => Option.none

mutual
/-- Structural equality on parse fragments (Python compares such objects
by identity; they never reach an equality test on any path a claim
exercises). -/
def pelemBeq : PElem → PElem → Bool
  | .tok a, .tok b => a == b
  | .s a, .s b => a == b
  | .l a, .l b => pelemListBeq a b
  | _, _ => false

def pelemListBeq : List PElem → List PElem → Bool
  | [], [] => true
  | a :: as_, b :: bs => pelemBeq a b && pelemListBeq as_ bs
  | _, _ => false
end

mutual
/-- Structural size of a value, used to budget the fuel of the fueled
recursions below (the auto-generated `sizeOf` of this nested inductive
has no executable code). -/
def valueSize : Value → Nat
  | .none => 1
  | .bool _ => 1
  | .int _ => 1
  | .float _ => 1
  | .str _ => 1
  | .list l => 1 + valueListSize l
  | .dict d => 1 + valuePairsSize d
  | .raw _ => 1

/-- Structural size of a list of values. -/
def valueListSize : List Value → Nat
  | [] => 0
  | v :: rest => 1 + valueSize v + valueListSize rest

/-- Structural size of a string-keyed pair list. -/
def valuePairsSize : List (String × Value) → Nat
  | [] => 0
  | (_, v) :: rest => 1 + valueSize v + valuePairsSize rest
end

mutual
/-- Fueled body of Python `==` (the fuel makes the nested recursion
structural so that concrete evaluations reduce definitionally; the
`pyEq` wrapper supplies more fuel than the recursion can consume). -/
def pyEqF : Nat → Value → Value → Bool
  | 0, _, _ => false
  | fuel + 1, a, b =>
    match a, b with
    | .none, .none => true
    | .str x, .str y => x == y
    | .list x, .list y => pyEqListF fuel x y
    | .dict x, .dict y => pyEqDictSubF fuel x y && pyEqDictSubF fuel y x
    | .raw x, .raw y => pelemBeq x y
    | _, _ =>
      match toRat a, toRat b with
      | some x, some y => x == y
      | _, _ => false

/-- Fueled elementwise list equality. -/
def pyEqListF : Nat → List Value → List Value → Bool
  | 0, _, _ => false
  | fuel + 1, a, b =>
    match a, b with
    | [], [] => true
    | x :: xs, y :: ys => pyEqF fuel x y && pyEqListF fuel xs ys
    | _, _ => false

/-- Fueled one-sided dict inclusion used by Python dict equality (order
of the pairs is irrelevant, as for Python dicts). -/
def pyEqDictSubF : Nat → List (String × Value) → List (String × Value) → Bool
  | 0, _, _ => false
  | fuel + 1, a, d =>
    match a with
    | [] => true
    | (k, v) :: rest => pyEqFindF fuel k v d && pyEqDictSubF fuel rest d

/-- Fueled search for the pair with key `k` in `d`, comparing its value
to `v`. -/
def pyEqFindF : Nat → String → Value → List (String × Value) → Bool
  | 0, _, _, _ => false
  | fuel + 1, k, v, d =>
    match d with
    | [] => false
    | (k2, w) :: drest => if k2 == k then pyEqF fuel v w else pyEqFindF fuel k v drest
end

/-- Python `==` on the modelled values: numeric kinds compare by value
(`True == 1`, `1 == 1.0`), strings, lists and dicts structurally, `None`
only to itself, and values of unrelated kinds are unequal. -/
def pyEq (a b : Value) : Bool := pyEqF (valueSize a + valueSize b + 1) a b

/-- Error kinds of the `DRLError` exception hierarchy (language.py lines
5-71).  `syn` stands for `DRLSyntaxError`, `ref` for `DRLReferenceError`. -/
inductive DRLKind where
  | base
  | syn
  | name
  | type_
  | ref
deriving DecidableEq, Repr

/-- Kinds of native Python exceptions that the embedded code can raise or
catch (`TypeError`, `ValueError`, `KeyError`, `NameError`,
`ZeroDivisionError`, anything else). -/
inductive PyKind where
  | typeErr
  | valueErr
  | keyErr
  | nameErr
  | zeroDiv
  | other
deriving DecidableEq, Repr

/-- An exception in flight: either a `DRLError` (carrying message,
expression, position and context exactly as the Python constructor does) or
a native Python exception. -/
inductive Err where
  | drl (kind : DRLKind) (message : String) (expression : String)
        (position : Int) (context : String)
  | py (kind : PyKind) (message : String)
deriving Repr

/-- Is the exception part of the `DRLError` hierarchy? -/
def Err.isDRL : Err → Bool
  | .drl .. => true
  | .py .. => false

/-- Would the exception be caught by `except (TypeError, ValueError)`?
(`DRLTypeError` subclasses `DRLError`, not `TypeError`, so it is not.) -/
def Err.isPyTypeOrValueErr : Err → Bool
  | .py .typeErr _ => true
  | .py .valueErr _ => true
  | _ => false

/-- `DRLError._format_message` (language.py lines 25-47): the `str()` of a
DRL error as built by its constructor. -/
def formatDRLMessage (message expression : String) (position : Int)
    (context : String) : String :=
  let parts0 := [message]
  let parts1 :=
    if expression ≠ "" then
      let p := parts0 ++ ["\n  Expression: " ++ expression]
      if 0 ≤ position ∧ position < (expression.data.length : Int) then
        let pos := position.toNat
        let start := pos - 40
        let stop := min expression.data.length (pos + 40)
        let snippet := String.mk ((expression.data.drop start).take (stop - start))
        let pointerPos := pos - start
        p ++ ["  Position " ++ toString position ++ ":", "    " ++ snippet,
              "    " ++ String.mk (List.replicate pointerPos ' ') ++ "^"]
      else p
    else parts0
  let parts2 := if context ≠ "" then parts1 ++ ["  Context: " ++ context] else parts1
  String.intercalate "\n" parts2

/-- Python `str(e)` on an exception value. -/
def errStr : Err → String
  | .drl _ m e p c => formatDRLMessage m e p c
  | .py _ m => m

/-- `DRLConfig` (language.py lines 74-110); `custom_functions` maps names
to callables, modelled as pure functions on argument lists. -/
structure DRLConfig where
  ref_indicator : String := "$"
  key_delimiter : String := ">"
  custom_functions : List (String × (List Value → Except Err Value)) := []
  drop_empty : Bool := false

/-- `DEFAULT_CONFIG` (language.py line 114). -/
def DEFAULT_CONFIG : DRLConfig := {}

/-- `DRLConfig.__init__` validation (language.py lines 92-105): the
reference indicator and key delimiter must not occur inside the reserved
string (Python `in` is substring containment, so the empty string is also
rejected). -/
def mkDRLConfig (ref_indicator : String := "$") (key_delimiter : String := ">")
    (custom_functions : List (String × (List Value → Except Err Value)) := [])
    (drop_empty : Bool := false) : Except Err DRLConfig :=
  let reserved := "(),\x27\x22 \t\n\r"
  if pyInStr ref_indicator reserved then
    .error (.py .valueErr ("Reference indicator \x27" ++ ref_indicator ++
      "\x27 conflicts with reserved syntax"))
  else if pyInStr key_delimiter reserved then
    .error (.py .valueErr ("Key delimiter \x27" ++ key_delimiter ++
      "\x27 conflicts with reserved syntax"))
  else
    .ok { ref_indicator, key_delimiter, custom_functions, drop_empty }

/-- Python truthiness `bool(v)` for the modelled values. -/
def pyTruthy : Value → Bool
  | .none => false
  | .bool b => b
  | .int n => n != 0
  | .float q => q != 0
  | .str s => s != ""
  | .list l => !l.isEmpty
  | .dict d => !d.isEmpty
  | .raw (.l xs) => !xs.isEmpty
  | .raw _ => true

/-- Integer view of a value already known numeric and non-float. -/
def intOf : Value → Int
  | .bool b => if b then 1 else 0
  | .int n => n
  | _ => 0

/-- Is the value a Python float? -/
def isFloat : Value → Bool
  | .float _ => true
  | _ => false

/-- Repetition count for Python sequence repetition (`"ab" * 2`): only
`bool`/`int` qualify. -/
def seqRepCount : Value → Option Int
  | .bool b => some (if b then 1 else 0)
  | .int n => some n
  | _ => Option.none

/-- `s * n` on a string, Python semantics (nonpositive count gives ""). -/
def strRep (s : String) (n : Int) : String :=
  String.join (List.replicate n.toNat s)

/-- `l * n` on a list, Python semantics. -/
def listRep (l : List Value) (n : Int) : List Value :=
  (List.replicate n.toNat l).flatten

/-- Python `+` on the modelled values (numbers with bool-as-int,
string/list concatenation; anything else is a native `TypeError`). -/
def pyAdd (a b : Value) : Except Err Value :=
  match a, b with
  | .str x, .str y => .ok (.str (x ++ y))
  | .list x, .list y => .ok (.list (x ++ y))
  | _, _ =>
    match toRat a, toRat b with
    | some x, some y =>
      if isFloat a || isFloat b then .ok (.float (x + y))
      else .ok (.int (intOf a + intOf b))
    | _, _ => .error (.py .typeErr "unsupported operand type(s) for +")

/-- Python `-` (numbers only among the modelled values). -/
def pySub (a b : Value) : Except Err Value :=
  match toRat a, toRat b with
  | some x, some y =>
    if isFloat a || isFloat b then .ok (.float (x - y))
    else .ok (.int (intOf a - intOf b))
  | _, _ => .error (.py .typeErr "unsupported operand type(s) for -")

/-- Python `*`: numbers, or sequence repetition with an integral count. -/
def pyMul (a b : Value) : Except Err Value :=
  match toRat a, toRat b with
  | some x, some y =>
    if isFloat a || isFloat b then .ok (.float (x * y))
    else .ok (.int (intOf a * intOf b))
  | _, _ =>
    match a, b with
    | .str s, c =>
      match seqRepCount c with
      | some n => .ok (.str (strRep s n))
      | Option.none => .error (.py .typeErr "cannot multiply sequence by non-int")
    | c, .str s =>
      match seqRepCount c with
      | some n => .ok (.str (strRep s n))
      | Option.none => .error (.py .typeErr "cannot multiply sequence by non-int")
    | .list l, c =>
      match seqRepCount c with
      | some n => .ok (.list (listRep l n))
      | Option.none => .error (.py .typeErr "cannot multiply sequence by non-int")
    | c, .list l =>
      match seqRepCount c with
      | some n => .ok (.list (listRep l n))
      | Option.none => .error (.py .typeErr "cannot multiply sequence by non-int")
    | _, _ => .error (.py .typeErr "unsupported operand type(s) for *")

/-- Python `/` (true division, always a float).  The caller (`evaluate`)
checks the right operand against zero before reaching this, so the
zero-denominator branch mirrors Python's own `ZeroDivisionError` but is
unreachable from `evaluate`. -/
def pyDiv (a b : Value) : Except Err Value :=
  match toRat a, toRat b with
  | some x, some y =>
    if y == 0 then .error (.py .zeroDiv "division by zero")
    else .ok (.float (x / y))
  | _, _ => .error (.py .typeErr "unsupported operand type(s) for /")

/-- Python `%` (floor modulus: the result has the sign of the divisor). -/
def pyMod (a b : Value) : Except Err Value :=
  match toRat a, toRat b with
  | some x, some y =>
    if y == 0 then .error (.py .zeroDiv "modulo by zero")
    else if isFloat a || isFloat b then
      .ok (.float (x - y * (Rat.floor (x / y) : ℚ)))
    else .ok (.int (Int.fmod (intOf a) (intOf b)))
  | _, _ => .error (.py .typeErr "unsupported operand type(s) for %")

/-- Python `**`: int base and nonnegative int exponent stay int; a negative
exponent or float operand gives a float.  A non-integral exponent would be
an irrational host float and is outside the rational model (unreachable
from every claim). -/
def pyPow (a b : Value) : Except Err Value :=
  match toRat a, toRat b with
  | some x, some y =>
    if isFloat a || isFloat b then
      if y.den == 1 then
        if 0 ≤ y.num then .ok (.float (x ^ y.num.toNat))
        else if x == 0 then
          .error (.py .zeroDiv "0.0 cannot be raised to a negative power")
        else .ok (.float ((x ^ (-y.num).toNat)⁻¹))
      else .error (.py .other "non-integral float exponent outside the rational model")
    else
      let ia := intOf a
      let ib := intOf b
      if 0 ≤ ib then .ok (.int (ia ^ ib.toNat))
      else if ia == 0 then
        .error (.py .zeroDiv "0 cannot be raised to a negative power")
      else .ok (.float (((ia : ℚ) ^ (-ib).toNat)⁻¹))
  | _, _ => .error (.py .typeErr "unsupported operand type(s) for ** or pow()")

mutual
/-- Fueled body of Python `<` (see `pyEqF` for the fuel convention). -/
def pyLtF : Nat → Value → Value → Except Err Bool
  | 0, _, _ => .error (.py .other "comparison fuel exhausted")
  | fuel + 1, a, b =>
    match a, b with
    | .str x, .str y => .ok (decide (x < y))
    | .list x, .list y => pyLtListF fuel x y
    | _, _ =>
      match toRat a, toRat b with
      | some x, some y => .ok (decide (x < y))
      | _, _ => .error (.py .typeErr "unsupported comparison")

/-- Fueled Python list `<`: the first non-equal pair decides; a strict
prefix is smaller. -/
def pyLtListF : Nat → List Value → List Value → Except Err Bool
  | 0, _, _ => .error (.py .other "comparison fuel exhausted")
  | fuel + 1, a, b =>
    match a, b with
    | [], [] => .ok false
    | [], _ :: _ => .ok true
    | _ :: _, [] => .ok false
    | x :: xs, y :: ys => if pyEq x y then pyLtListF fuel xs ys else pyLtF fuel x y
end

/-- Python `<` on the modelled values: numbers cross-kind, strings by code
point, lists lexicographically; anything else is a native `TypeError`. -/
def pyLt (a b : Value) : Except Err Bool := pyLtF (valueSize a + valueSize b + 1) a b

mutual
/-- Fueled body of Python `<=`. -/
def pyLeF : Nat → Value → Value → Except Err Bool
  | 0, _, _ => .error (.py .other "comparison fuel exhausted")
  | fuel + 1, a, b =>
    match a, b with
    | .str x, .str y => .ok (decide (x < y) || x == y)
    | .list x, .list y => pyLeListF fuel x y
    | _, _ =>
      match toRat a, toRat b with
      | some x, some y => .ok (decide (x ≤ y))
      | _, _ => .error (.py .typeErr "unsupported comparison")

/-- Fueled Python list `<=`: the first non-equal pair decides with `<`;
otherwise the shorter-or-equal list is `<=`. -/
def pyLeListF : Nat → List Value → List Value → Except Err Bool
  | 0, _, _ => .error (.py .other "comparison fuel exhausted")
  | fuel + 1, a, b =>
    match a, b with
    | [], _ => .ok true
    | _ :: _, [] => .ok false
    | x :: xs, y :: ys => if pyEq x y then pyLeListF fuel xs ys else pyLtF fuel x y
end

/-- Python `<=` on the modelled values. -/
def pyLe (a b : Value) : Except Err Bool := pyLeF (valueSize a + valueSize b + 1) a b

/-- Build a token; `behavior` defaults to "required" as in the source. -/
def mkToken (t v : String) (b : String := "required") : Token := ⟨t, v, b⟩

/-- Lookup of the character at an index, Python `expression[i]` guarded by
an `i < len(expression)` test. -/
def cAt (chars : List Char) (i : Nat) : Option Char := chars[i]?

/-- language.py 190-200: collect characters from `i` up to the closing
delimiter; returns the collected text and the index just past the
delimiter, or `none` when the reference is unterminated. -/
def scanUntil (chars : List Char) (closing : Char) :
    Nat → Nat → List Char → Option (String × Nat)
  | 0, _, _ => Option.none
  | fuel + 1, i, acc =>
    match cAt chars i with
    | Option.none => Option.none
    | some c =>
      if c == closing then some (String.mk acc, i + 1)
      else scanUntil chars closing fuel (i + 1) (acc ++ [c])

/-- language.py 296-303: scan a quoted string literal with
backslash-consumes-next-character escaping; `none` when unterminated. -/
def scanString (chars : List Char) (quote : Char) :
    Nat → Nat → List Char → Option (String × Nat)
  | 0, _, _ => Option.none
  | fuel + 1, i, acc =>
    match cAt chars i with
    | Option.none => Option.none
    | some c =>
      if c == quote then some (String.mk acc, i + 1)
      else if c == '\\' && i + 1 < chars.length then
        match cAt chars (i + 1) with
        | some c2 => scanString chars quote fuel (i + 2) (acc ++ [c2])
        | Option.none => Option.none
      else scanString chars quote fuel (i + 1) (acc ++ [c])

/-- language.py 239-241 and 416-418: advance past whitespace. -/
def skipSpaces (chars : List Char) : Nat → Nat → Nat
  | 0, j => j
  | fuel + 1, j =>
    match cAt chars j with
    | some c => if pyIsSpace c then skipSpaces chars fuel (j + 1) else j
    | Option.none => j

/-- language.py 205-210: the stop characters for a bare (undelimited)
reference: the base set minus the key delimiter (when it is one of these
single characters), plus the characters of the reference indicator. -/
def bareStopChars (cfg : DRLConfig) : List Char :=
  let base := "(),\x27\x22+-*/%^<>=![]\x7b\x7d".data
  (base.filter (fun c => !(String.mk [c] == cfg.key_delimiter))) ++
    cfg.ref_indicator.data

/-- language.py 222-230 (and the identical 254-263): the key delimiter
character sitting at position `p` counts as a comparison operator when it
is at the end of the expression or the next character is whitespace or one
of the operator characters. -/
def delimIsComparison (chars : List Char) (p : Nat) : Bool :=
  match cAt chars (p + 1) with
  | Option.none => true
  | some nc => pyIsSpace nc || "=!<>(),\x27\x22+-*/%^".data.contains nc

/-- language.py 265-283: does a whole-word logical keyword (`and`, `not`,
`or`) start at position `j`? -/
def logicalAhead (chars : List Char) (j : Nat) : Bool :=
  let n := chars.length
  (decide (j + 3 ≤ n) &&
    (let w := String.mk ((chars.drop j).take 3)
     (w == "and" || w == "not") &&
       (j + 3 == n ||
         !(match cAt chars (j + 3) with
           | some c => pyIsAlnum c
           | Option.none => false)))) ||
  (decide (j + 2 ≤ n) && String.mk ((chars.drop j).take 2) == "or" &&
    (j + 2 == n ||
      !(match cAt chars (j + 2) with
        | some c => pyIsAlnum c
        | Option.none => false)))

/-- language.py 212-286: scan a bare reference path.  Stops at stop
characters, at a key delimiter acting as a comparison operator, and at a
space whose next non-space character is a stop character, a
comparison-acting delimiter, or a logical keyword; otherwise the character
(including embedded spaces) joins the path. -/
def bareScan (cfg : DRLConfig) (chars : List Char) :
    Nat → Nat → List Char → (String × Nat)
  | 0, i, acc => (String.mk acc, i)
  | fuel + 1, i, acc =>
    match cAt chars i with
    | Option.none => (String.mk acc, i)
    | some c =>
      if String.mk [c] == cfg.key_delimiter && pyInStr cfg.key_delimiter "<>=" &&
          delimIsComparison chars i then
        (String.mk acc, i)
      else if (bareStopChars cfg).contains c then
        (String.mk acc, i)
      else if pyIsSpace c then
        let j := skipSpaces chars (chars.length + 1) (i + 1)
        match cAt chars j with
        | Option.none => bareScan cfg chars fuel (i + 1) (acc ++ [c])
        | some cj =>
          if (bareStopChars cfg).contains cj then (String.mk acc, i)
          else if pyInStr cfg.key_delimiter "<>=" &&
              String.mk [cj] == cfg.key_delimiter &&
              delimIsComparison chars j then
            (String.mk acc, i)
          else if logicalAhead chars j then (String.mk acc, i)
          else bareScan cfg chars fuel (i + 1) (acc ++ [c])
      else bareScan cfg chars fuel (i + 1) (acc ++ [c])

/-- language.py 379-388: scan a numeric literal (digits with at most one
decimal point). -/
def scanNumber (chars : List Char) : Nat → Nat → Bool → List Char → (String × Nat)
  | 0, i, _, acc => (String.mk acc, i)
  | fuel + 1, i, hasDot, acc =>
    match cAt chars i with
    | some c =>
      if pyIsDigit c then scanNumber chars fuel (i + 1) hasDot (acc ++ [c])
      else if c == '.' && !hasDot then scanNumber chars fuel (i + 1) true (acc ++ [c])
      else (String.mk acc, i)
    | Option.none => (String.mk acc, i)

/-- language.py 393-398: scan an identifier (`[A-Za-z0-9_]` continuation). -/
def scanName (chars : List Char) : Nat → Nat → List Char → (String × Nat)
  | 0, i, acc => (String.mk acc, i)
  | fuel + 1, i, acc =>
    match cAt chars i with
    | some c =>
      if pyIsAlnum c || c == '_' then scanName chars fuel (i + 1) (acc ++ [c])
      else (String.mk acc, i)
    | Option.none => (String.mk acc, i)

/-- The main loop of `tokenize` (language.py 156-435), one branch per
source branch, in source order.  `fuel` only bounds the recursion; every
iteration consumes at least one character, so `length + 1` always
suffices. -/
def tokLoop (cfg : DRLConfig) (orig : String) (chars : List Char) :
    Nat → Nat → Except Err (List Token)
  | 0, _ => .error (.py .other "tokenize fuel exhausted")
  | fuel + 1, i =>
    match cAt chars i with
    | Option.none => .ok []
    | some c =>
      if pyIsSpace c then tokLoop cfg orig chars fuel (i + 1)
      else if String.mk [c] == cfg.ref_indicator then
        let refStart := i
        let bhc : String × Option Char × Nat :=
          match cAt chars (i + 1) with
          | some '(' => ("required", some ')', i + 2)
          | some '[' => ("optional", some ']', i + 2)
          | some '\x7b' => ("passthrough", some '\x7d', i + 2)
          | _ => ("required", Option.none, i + 1)
        match bhc with
        | (behavior, some cd, i2) =>
          match scanUntil chars cd (chars.length + 1) i2 [] with
          | Option.none =>
            .error (.drl .syn
              ("Unterminated reference: expected closing \x27" ++ String.mk [cd] ++ "\x27")
              orig refStart
              ("Reference started at position " ++ toString refStart ++ " but never closed"))
          | some (ref, i3) => do
            let rest ← tokLoop cfg orig chars fuel i3
            pure (mkToken "REFERENCE" (pyStrip ref) behavior :: rest)
        | (behavior, Option.none, i2) =>
          let (ref, i3) := bareScan cfg chars (chars.length + 1) i2 []
          do
            let rest ← tokLoop cfg orig chars fuel i3
            pure (mkToken "REFERENCE" (pyStrip ref) behavior :: rest)
      else if c == '\x22' || c == '\x27' then
        match scanString chars c (chars.length + 1) (i + 1) [] with
        | Option.none =>
          .error (.drl .syn
            ("Unterminated string literal starting with " ++ String.mk [c])
            orig i
            ("String started at position " ++ toString i ++ " but never closed"))
        | some (sv, i2) => do
          let rest ← tokLoop cfg orig chars fuel i2
          pure (mkToken "STRING" sv :: rest)
      else if c == '(' then do
        let rest ← tokLoop cfg orig chars fuel (i + 1)
        pure (mkToken "LPAREN" "(" :: rest)
      else if c == ')' then do
        let rest ← tokLoop cfg orig chars fuel (i + 1)
        pure (mkToken "RPAREN" ")" :: rest)
      else if c == ',' then do
        let rest ← tokLoop cfg orig chars fuel (i + 1)
        pure (mkToken "COMMA" "," :: rest)
      else if "+-*/".data.contains c then do
        let rest ← tokLoop cfg orig chars fuel (i + 1)
        pure (mkToken "OPERATOR" (String.mk [c]) :: rest)
      else if c == '^' then do
        let rest ← tokLoop cfg orig chars fuel (i + 1)
        pure (mkToken "OPERATOR" "^" :: rest)
      else if c == '%' then do
        let rest ← tokLoop cfg orig chars fuel (i + 1)
        pure (mkToken "OPERATOR" "%" :: rest)
      else
        let twoChar := String.mk ((chars.drop i).take 2)
        if i + 1 < chars.length &&
            (twoChar == "==" || twoChar == "!=" || twoChar == "<=" || twoChar == ">=") then do
          let rest ← tokLoop cfg orig chars fuel (i + 2)
          pure (mkToken "COMPARISON" twoChar :: rest)
        else if c == '<' || c == '>' then do
          let rest ← tokLoop cfg orig chars fuel (i + 1)
          pure (mkToken "COMPARISON" (String.mk [c]) :: rest)
        else if c == '!' then
          .error (.drl .syn
            "Unexpected \x27!\x27 character - did you mean \x27!=\x27 for not-equal comparison?"
            orig i
            "The \x27!\x27 character is only valid as part of the \x27!=\x27 operator")
        else if pyIsDigit c ||
            (c == '.' &&
              (match cAt chars (i + 1) with
               | some c2 => pyIsDigit c2
               | Option.none => false)) then
          let (num, i2) := scanNumber chars (chars.length + 1) i false []
          do
            let rest ← tokLoop cfg orig chars fuel i2
            pure (mkToken "NUMBER" num :: rest)
        else if pyIsAlpha c || c == '_' then
          let (nm, i2) := scanName chars (chars.length + 1) i []
          if nm == "True" then do
            let rest ← tokLoop cfg orig chars fuel i2
            pure (mkToken "BOOLEAN" "True" :: rest)
          else if nm == "False" then do
            let rest ← tokLoop cfg orig chars fuel i2
            pure (mkToken "BOOLEAN" "False" :: rest)
          else if nm == "and" || nm == "or" then do
            let rest ← tokLoop cfg orig chars fuel i2
            pure (mkToken "LOGICAL" nm :: rest)
          else if nm == "not" then do
            let rest ← tokLoop cfg orig chars fuel i2
            pure (mkToken "NOT" "not" :: rest)
          else
            let j := skipSpaces chars (chars.length + 1) i2
            match cAt chars j with
            | some '(' => do
              let rest ← tokLoop cfg orig chars fuel i2
              pure (mkToken "FUNCTION" nm :: rest)
            | _ => do
              let rest ← tokLoop cfg orig chars fuel i2
              pure (mkToken "IDENTIFIER" nm :: rest)
        else
          .error (.drl .syn
            ("Unexpected character \x27" ++ String.mk [c] ++ "\x27")
            orig i
            "This character is not valid DRL syntax")

/-- `tokenize` (language.py 131-435). -/
def tokenize (expression : String) (cfg : DRLConfig := DEFAULT_CONFIG) :
    Except Err (List Token) :=
  tokLoop cfg expression expression.data (expression.data.length + 1) 0

/-- Operator precedence table (language.py 572-589): lower number binds
tighter; `precedence.get(op, 999)` for anything else. -/
def precOf (op : String) : Nat :=
  if op == "^" then 1
  else if op == "*" || op == "/" || op == "%" then 2
  else if op == "+" || op == "-" then 3
  else if op == "<" || op == ">" || op == "<=" || op == ">=" then 4
  else if op == "==" || op == "!=" then 5
  else if op == "not" then 6
  else if op == "and" then 7
  else if op == "or" then 8
  else 999

/-- Fuel-exhaustion marker for the parser helpers; never reached with the
fuel `parse_line` supplies. -/
def parseFuelErr : Err := .py .other "parse fuel exhausted"

mutual
/-- `parse_expression_with_precedence` (language.py 591-630): unary `not`
handling followed by the operator loop. -/
def parseExprPrec (orig : String) (tokens : List Token) :
    Nat → Nat → Nat → Except Err (PElem × Nat)
  | 0, _, _ => .error parseFuelErr
  | fuel + 1, start, minPrec => do
    let (left0, s0) ←
      match tokens.get? start with
      | some t =>
        if t.type_ == "NOT" then do
          let (operand, s) ← parseExprPrec orig tokens fuel (start + 1) (precOf "not" + 1)
          pure (PElem.l [.s "NOT", operand], s)
        else parsePrimary orig tokens fuel start
      | Option.none => parsePrimary orig tokens fuel start
    parseOpsLoop orig tokens fuel left0 s0 minPrec
termination_by structural fuel _ _ => fuel

/-- The `while` loop of `parse_expression_with_precedence` (language.py
603-628): consume operators that bind tighter than `minPrec`, parsing each
right-hand side with `op_precedence + 1`. -/
def parseOpsLoop (orig : String) (tokens : List Token) :
    Nat → PElem → Nat → Nat → Except Err (PElem × Nat)
  | 0, _, _, _ => .error parseFuelErr
  | fuel + 1, left, start, minPrec =>
    match tokens.get? start with
    | Option.none => .ok (left, start)
    | some t =>
      if t.type_ == "OPERATOR" || t.type_ == "COMPARISON" || t.type_ == "LOGICAL" then
        let op := t.value
        let opPrec := precOf op
        if opPrec ≥ minPrec then .ok (left, start)
        else do
          let (right, s2) ← parseExprPrec orig tokens fuel (start + 1) (opPrec + 1)
          let node :=
            if t.type_ == "COMPARISON" then PElem.l [.s "COMPARISON", .s op, left, right]
            else if t.type_ == "LOGICAL" then PElem.l [.s "LOGICAL", .s op, left, right]
            else PElem.l [.s "OPERATOR", .s op, left, right]
          parseOpsLoop orig tokens fuel node s2 minPrec
      else .ok (left, start)
termination_by structural fuel _ _ _ => fuel

/-- `parse_primary` (language.py 632-699): parenthesized expression,
function call, or single token. -/
def parsePrimary (orig : String) (tokens : List Token) :
    Nat → Nat → Except Err (PElem × Nat)
  | 0, _ => .error parseFuelErr
  | fuel + 1, start =>
    match tokens.get? start with
    | Option.none =>
      .error (.drl .syn "Unexpected end of expression" orig
        ((orig.data.length : Int) - 1) "Expected a value, reference, or function call")
    | some t =>
      if t.type_ == "LPAREN" then do
        let (expr, s1) ← parseExprPrec orig tokens fuel (start + 1) 999
        match tokens.get? s1 with
        | some t2 =>
          if t2.type_ == "RPAREN" then .ok (expr, s1 + 1)
          else
            .error (.drl .syn "Missing closing parenthesis \x27)\x27" orig
              ((orig.data.length : Int) - 1)
              "Every opening \x27(\x27 must have a matching closing \x27)\x27")
        | Option.none =>
          .error (.drl .syn "Missing closing parenthesis \x27)\x27" orig
            ((orig.data.length : Int) - 1)
            "Every opening \x27(\x27 must have a matching closing \x27)\x27")
      else if t.type_ == "FUNCTION" then
        let fname := t.value
        match tokens.get? (start + 1) with
        | some t2 =>
          if t2.type_ == "LPAREN" then do
            let (args, s2) ← parseArgsLoop orig tokens fuel (start + 2) []
            match tokens.get? s2 with
            | some t3 =>
              if t3.type_ == "RPAREN" then .ok (.l (.s fname :: args), s2 + 1)
              else
                .error (.drl .syn
                  ("Missing closing parenthesis for function \x27" ++ fname ++ "\x27")
                  orig ((orig.data.length : Int) - 1)
                  ("Function call started but never closed: " ++ fname ++ "(...)"))
            | Option.none =>
              .error (.drl .syn
                ("Missing closing parenthesis for function \x27" ++ fname ++ "\x27")
                orig ((orig.data.length : Int) - 1)
                ("Function call started but never closed: " ++ fname ++ "(...)"))
          else
            .error (.drl .syn
              ("Expected \x27(\x27 after function name \x27" ++ fname ++ "\x27")
              orig (-1)
              ("Function calls must be followed by parentheses: " ++ fname ++ "(...)"))
        | Option.none =>
          .error (.drl .syn
            ("Expected \x27(\x27 after function name \x27" ++ fname ++ "\x27")
            orig (-1)
            ("Function calls must be followed by parentheses: " ++ fname ++ "(...)"))
      else .ok (.tok t, start + 1)
termination_by structural fuel _ => fuel

/-- The argument loop of `parse_primary` (language.py 674-684): skip
commas, parse each argument with the default minimum precedence.  (The
source guards `if arg is not None`, which is always true: the parser never
returns `None` for a sub-expression.) -/
def parseArgsLoop (orig : String) (tokens : List Token) :
    Nat → Nat → List PElem → Except Err (List PElem × Nat)
  | 0, _, _ => .error parseFuelErr
  | fuel + 1, start, args =>
    match tokens.get? start with
    | Option.none => .ok (args, start)
    | some t =>
      if t.type_ == "RPAREN" then .ok (args, start)
      else if t.type_ == "COMMA" then parseArgsLoop orig tokens fuel (start + 1) args
      else do
        let (arg, s2) ← parseExprPrec orig tokens fuel start 999
        parseArgsLoop orig tokens fuel s2 (args ++ [arg])
termination_by structural fuel _ _ => fuel
end

/-- `parse_line` (language.py 541-702).  Returns `none` for an empty token
stream; a lone `REFERENCE`/`NUMBER`/`BOOLEAN` token is returned directly;
everything else goes through the precedence parser, whose leftover-token
count is discarded exactly as in `result, _ = ...`. -/
def parse_line (line : String) (cfg : DRLConfig := DEFAULT_CONFIG) :
    Except Err (Option PElem) := do
  let tokens ← tokenize line cfg
  match tokens with
  | [] => pure Option.none
  | [t] =>
    if t.type_ == "REFERENCE" || t.type_ == "NUMBER" || t.type_ == "BOOLEAN" then
      pure (some (.tok t))
    else do
      let (result, _) ← parseExprPrec line tokens (tokens.length * 4 + 16) 0 999
      pure (some result)
  | _ => do
    let (result, _) ← parseExprPrec line tokens (tokens.length * 4 + 16) 0 999
    pure (some result)

/-- Python `type(v).__name__` for the modelled values. -/
def pyTypeName : Value → String
  | .none => "NoneType"
  | .bool _ => "bool"
  | .int _ => "int"
  | .float _ => "float"
  | .str _ => "str"
  | .list _ => "list"
  | .dict _ => "dict"
  | .raw _ => "list"

/-- Python `f-string` rendering of a list of strings (repr style, used for
the available-keys preview in reference errors). -/
def pyReprStrList (keys : List String) : String :=
  "[" ++ String.intercalate ", " (keys.map (fun k => "\x27" ++ k ++ "\x27")) ++ "]"

/-- Python sequence indexing `l[i]` once `-len <= i < len` holds. -/
def pyIndex (l : List Value) (i : Int) : Value :=
  if i < 0 then l.getD ((l.length : Int) + i).toNat .none else l.getD i.toNat .none

/-- The per-segment walk of `resolve_reference` (language.py 472-536):
strip the segment, extend the diagnostic path, then branch on the current
value being a mapping, a sequence, or a scalar, honouring the behavior on
every failure. -/
def resolveParts (cfg : DRLConfig) (expr : String) (pos : Int)
    (behavior : String) (original_ref : String) :
    List String → Value → List String → Except Err Value
  | [], value, _ => .ok value
  | part0 :: rest, value, path_so_far =>
    let part := pyStrip part0
    let path2 := path_so_far ++ [part]
    match value with
    | .dict d =>
      match dictGet d part with
      | some v => resolveParts cfg expr pos behavior original_ref rest v path2
      | Option.none =>
        if behavior == "optional" then .ok .none
        else if behavior == "passthrough" then .ok (.str original_ref)
        else
          let availableKeys := (d.map Prod.fst).take 5
          let keyHint :=
            if availableKeys.isEmpty then "Dictionary is empty"
            else "Available keys: " ++ pyReprStrList availableKeys
          .error (.drl .ref
            ("Reference key \x27" ++ part ++ "\x27 not found in context")
            expr pos
            ("Failed at: " ++ String.intercalate cfg.key_delimiter path2 ++
              "\n  " ++ keyHint))
    | .list l =>
      match pyToInt part with
      | some index =>
        if -(l.length : Int) ≤ index ∧ index < (l.length : Int) then
          resolveParts cfg expr pos behavior original_ref rest (pyIndex l index) path2
        else if behavior == "optional" then .ok .none
        else if behavior == "passthrough" then .ok (.str original_ref)
        else
          .error (.drl .ref
            ("List index " ++ toString index ++ " out of range")
            expr pos
            ("List at \x27" ++ String.intercalate cfg.key_delimiter path_so_far ++
              "\x27 has length " ++ toString l.length))
      | Option.none =>
        if behavior == "optional" then .ok .none
        else if behavior == "passthrough" then .ok (.str original_ref)
        else
          .error (.drl .type_
            ("Cannot use non-integer key \x27" ++ part ++ "\x27 to index " ++
              pyTypeName value)
            expr pos
            ("Value at \x27" ++ String.intercalate cfg.key_delimiter path_so_far ++
              "\x27 is a " ++ pyTypeName value ++ ", requires integer index"))
    | _ =>
      if behavior == "optional" then .ok .none
      else if behavior == "passthrough" then .ok (.str original_ref)
      else
        .error (.drl .type_
          ("Cannot navigate into non-dict/non-list value at key \x27" ++ part ++ "\x27")
          expr pos
          ("Value at \x27" ++ String.intercalate cfg.key_delimiter path_so_far ++
            "\x27 is " ++ pyTypeName value ++ ", not a dictionary or list"))

/-- `resolve_reference` (language.py 438-538): split the path on the key
delimiter (Python `str.split` raises `ValueError` on an empty separator,
which a constructed config rules out) and walk the parts. -/
def resolve_reference (reference : String) (context : Value)
    (cfg : DRLConfig := DEFAULT_CONFIG) (expr : String := "")
    (pos : Int := -1) (behavior : String := "required")
    (original_ref : String := "") : Except Err Value :=
  if cfg.key_delimiter == "" then .error (.py .valueErr "empty separator")
  else
    resolveParts cfg expr pos behavior original_ref
      (pySplit reference cfg.key_delimiter) context []

/-- Python `str()` of a float in the rational model: exact integers render
like CPython (`2.0`); other rationals keep an exact fraction rendering (an
abstraction of the host shortest-round-trip decimal; no theorem depends on
it). -/
def floatStr (q : ℚ) : String :=
  if q.den == 1 then toString q.num ++ ".0" else toString q

mutual
/-- Python `str(v)` for the modelled values. -/
def pyStr : Value → String
  | .none => "None"
  | .bool b => if b then "True" else "False"
  | .int n => toString n
  | .float q => floatStr q
  | .str s => s
  | .list l => "[" ++ pyReprSeq l ++ "]"
  | .dict d => "\x7b" ++ pyReprPairs d ++ "\x7d"
  | .raw _ => "<parse fragment>"

/-- Python `repr(v)`: like `str` but strings get quotes (containers embed
reprs of their elements). -/
def pyRepr : Value → String
  | .str s => "\x27" ++ s ++ "\x27"
  | .none => "None"
  | .bool b => if b then "True" else "False"
  | .int n => toString n
  | .float q => floatStr q
  | .list l => "[" ++ pyReprSeq l ++ "]"
  | .dict d => "\x7b" ++ pyReprPairs d ++ "\x7d"
  | .raw _ => "<parse fragment>"

/-- Comma-joined reprs of the elements of a sequence. -/
def pyReprSeq : List Value → String
  | [] => ""
  | [v] => pyRepr v
  | v :: rest => pyRepr v ++ ", " ++ pyReprSeq rest

/-- Comma-joined `'key': repr` pairs of a dict. -/
def pyReprPairs : List (String × Value) → String
  | [] => ""
  | [(k, v)] => "\x27" ++ k ++ "\x27: " ++ pyRepr v
  | (k, v) :: rest => "\x27" ++ k ++ "\x27: " ++ pyRepr v ++ ", " ++ pyReprPairs rest
end

/-- Python `float(s)` for a lexed number literal (digits with at most one
decimal point). -/
def pyFloatOfNumText (s : String) : ℚ :=
  let ip := s.data.takeWhile (fun c => c != '.')
  let frac := (s.data.dropWhile (fun c => c != '.')).drop 1
  let ipVal : ℚ := ((digitsVal ip).getD 0 : ℤ)
  let fracVal : ℚ := ((digitsVal frac).getD 0 : ℤ)
  ipVal + fracVal / ((10 : ℚ) ^ frac.length)

/-- The function registry and `execute` (functions.py 434-489, 585-614):
per-config custom functions shadow the process-wide table; an unknown name
raises the native `NameError` of functions.py line 611.  Of the builtin
catalogue only the entries a theorem below touches are modelled (`str`,
`if` with its bool-coerced condition via `convert_arg_types`); every claim
avoids the rest, and the `shuffle` entry, whose in-place mutation is the
point of claim C8, is modelled separately with explicit state passing. -/
def execute (function_name : String) (args : List Value)
    (cfg : DRLConfig) : Except Err Value :=
  match cfg.custom_functions.find? (fun kv => kv.1 == function_name) with
  | some kv => kv.2 args
  | Option.none =>
    if function_name == "str" then
      match args with
      | [v] => .ok (.str (pyStr v))
      | _ => .error (.py .typeErr "str() takes at most 1 argument")
    else if function_name == "if" then
      match args with
      | [c, tv, fv] => .ok (if pyTruthy c then tv else fv)
      | _ => .error (.py .typeErr "if_function() takes 3 arguments")
    else
      .error (.py .nameErr ("Function \x27" ++ function_name ++ "\x27 not found"))

/-- The arithmetic dispatch of `evaluate` (language.py 797-827), including
the right-operand zero checks that precede division and modulo. -/
def applyOperator (opE : PElem) (lv rv : Value) (expr : String) : Except Err Value :=
  let opText := match opE with | .s o => o | _ => pyStr (.raw opE)
  match opE with
  | .s op =>
    if op == "+" then pyAdd lv rv
    else if op == "-" then pySub lv rv
    else if op == "*" then pyMul lv rv
    else if op == "/" then
      if pyEq rv (.int 0) then
        .error (.drl .type_ "Division by zero" expr (-1) "Cannot divide by zero")
      else pyDiv lv rv
    else if op == "%" then
      if pyEq rv (.int 0) then
        .error (.drl .type_ "Modulo by zero" expr (-1)
          "Cannot perform modulo with zero divisor")
      else pyMod lv rv
    else if op == "^" then pyPow lv rv
    else
      .error (.drl .syn ("Unknown operator: " ++ op) expr (-1)
        ("The operator \x27" ++ op ++ "\x27 is not supported"))
  | _ =>
    .error (.drl .syn ("Unknown operator: " ++ opText) expr (-1)
      ("The operator \x27" ++ opText ++ "\x27 is not supported"))

/-- The comparison dispatch of `evaluate` (language.py 830-854). -/
def applyComparison (opE : PElem) (lv rv : Value) (expr : String) : Except Err Value :=
  match opE with
  | .s op =>
    if op == "==" then .ok (.bool (pyEq lv rv))
    else if op == "!=" then .ok (.bool (!pyEq lv rv))
    else if op == "<" then do let b ← pyLt lv rv; pure (.bool b)
    else if op == ">" then do let b ← pyLt rv lv; pure (.bool b)
    else if op == "<=" then do let b ← pyLe lv rv; pure (.bool b)
    else if op == ">=" then do let b ← pyLe rv lv; pure (.bool b)
    else
      .error (.drl .syn ("Unknown comparison operator: " ++ op) expr (-1)
        ("The comparison operator \x27" ++ op ++ "\x27 is not supported"))
  | _ =>
    .error (.drl .syn ("Unknown comparison operator: " ++ pyStr (.raw opE)) expr (-1)
      ("The comparison operator \x27" ++ pyStr (.raw opE) ++ "\x27 is not supported"))

/-- The logical dispatch of `evaluate` (language.py 857-873): Python
`and`/`or` return one of the operands, both of which were already fully
evaluated. -/
def applyLogical (opE : PElem) (lv rv : Value) (expr : String) : Except Err Value :=
  match opE with
  | .s op =>
    if op == "and" then .ok (if pyTruthy lv then rv else lv)
    else if op == "or" then .ok (if pyTruthy lv then lv else rv)
    else
      .error (.drl .syn ("Unknown logical operator: " ++ op) expr (-1)
        ("The logical operator \x27" ++ op ++ "\x27 is not supported"))
  | _ =>
    .error (.drl .syn ("Unknown logical operator: " ++ pyStr (.raw opE)) expr (-1)
      ("The logical operator \x27" ++ pyStr (.raw opE) ++ "\x27 is not supported"))

/-- Python exception class name, for the `interpret` catch-all wrap. -/
def pyErrTypeName : Err → String
  | .py .typeErr _ => "TypeError"
  | .py .valueErr _ => "ValueError"
  | .py .keyErr _ => "KeyError"
  | .py .nameErr _ => "NameError"
  | .py .zeroDiv _ => "ZeroDivisionError"
  | .py .other _ => "Exception"
  | .drl .. => "DRLError"

mutual
/-- The recursive body of `evaluate` (language.py 705-923) on a non-`None`
parse structure, branch for branch: token handling, the four marker list
shapes (with the `len(parsed) == 4` / `== 2` guards expressed by the list
patterns), the function-call fallback for any other string-headed list,
and `return parsed` for everything else. -/
def evalP (context : Value) (cfg : DRLConfig) (expr : String) :
    PElem → Except Err Value
  | .tok t =>
    if t.type_ == "REFERENCE" then
      resolve_reference t.value context cfg expr (-1) t.behavior
        (cfg.ref_indicator ++ t.value)
    else if t.type_ == "STRING" then .ok (.str t.value)
    else if t.type_ == "NUMBER" then
      if pyInStr "." t.value then .ok (.float (pyFloatOfNumText t.value))
      else .ok (.int ((pyToInt t.value).getD 0))
    else if t.type_ == "BOOLEAN" then .ok (.bool (t.value == "True"))
    else if t.type_ == "IDENTIFIER" then .ok (.str t.value)
    else
      .error (.drl .syn ("Cannot evaluate token type: " ++ t.type_) expr (-1)
        ("Token with value \x27" ++ t.value ++ "\x27 has unexpected type"))
  | .l [.s "OPERATOR", opE, lE, rE] =>
    let firstTry : Except Err (Value × Value) := do
      let lv ← evalP context cfg expr lE
      let rv ← evalP context cfg expr rE
      pure (lv, rv)
    (match firstTry with
     | .ok (lv, rv) => applyOperator opE lv rv expr
     | .error e =>
       if e.isPyTypeOrValueErr then
         match evalP context cfg expr lE with
         | .error e1 =>
           .error (.drl .type_ ("Error evaluating left operand: " ++ errStr e1)
             expr (-1) "Left operand evaluation failed")
         | .ok lv2 =>
           match evalP context cfg expr rE with
           | .error e2 =>
             .error (.drl .type_ ("Error evaluating right operand: " ++ errStr e2)
               expr (-1) "Right operand evaluation failed")
           | .ok rv2 =>
             let opText := match opE with | .s o => o | _ => pyStr (.raw opE)
             .error (.drl .type_
               ("Type error in operation: " ++ pyStr lv2 ++ " " ++ opText ++ " " ++
                 pyStr rv2)
               expr (-1)
               ("Cannot perform \x27" ++ opText ++ "\x27 on " ++ pyTypeName lv2 ++
                 " and " ++ pyTypeName rv2))
       else .error e)
  | .l [.s "COMPARISON", opE, lE, rE] => do
    let lv ← evalP context cfg expr lE
    let rv ← evalP context cfg expr rE
    applyComparison opE lv rv expr
  | .l [.s "LOGICAL", opE, lE, rE] => do
    let lv ← evalP context cfg expr lE
    let rv ← evalP context cfg expr rE
    applyLogical opE lv rv expr
  | .l [.s "NOT", operand] => do
    let v ← evalP context cfg expr operand
    pure (.bool (!pyTruthy v))
  | .l (.s fname :: rest) =>
    (match evalArgs context cfg expr rest with
     | .error e =>
       if e.isDRL then .error e
       else
         .error (.drl .type_
           ("Error evaluating argument for function \x27" ++ fname ++ "\x27: " ++
             errStr e)
           expr (-1) ("Function: " ++ fname))
     | .ok args =>
       match execute fname args cfg with
       | .ok v => .ok v
       | .error (.py .nameErr msg) =>
         .error (.drl .name msg expr (-1)
           ("Function \x27" ++ fname ++
             "\x27 is not defined. Check spelling or register as custom function."))
       | .error e =>
         if e.isDRL then .error e
         else
           .error (.drl .type_
             ("Error executing function \x27" ++ fname ++ "\x27: " ++ errStr e)
             expr (-1)
             ("Function: " ++ fname ++ ", Arguments: [" ++ pyReprSeq args ++ "]")))
  | .s sv => .ok (.str sv)
  | p => .ok (.raw p)

/-- Left-to-right evaluation of function-call arguments (language.py
883-886); the first error aborts the comprehension. -/
def evalArgs (context : Value) (cfg : DRLConfig) (expr : String) :
    List PElem → Except Err (List Value)
  | [] => .ok []
  | a :: rest => do
    let v ← evalP context cfg expr a
    let vs ← evalArgs context cfg expr rest
    pure (v :: vs)
end

/-- `evaluate` (language.py 705-923): `None` input reaches the final
`return parsed` and comes back as `None`. -/
def evaluate (parsed : Option PElem) (context : Value)
    (cfg : DRLConfig := DEFAULT_CONFIG) (expr : String := "") : Except Err Value :=
  match parsed with
  | Option.none => .ok .none
  | some p => evalP context cfg expr p

/-- `interpret` (language.py 926-976): parse then evaluate, re-raising DRL
errors untouched, converting a native `KeyError` to `DRLReferenceError`
and wrapping anything else in a base `DRLError`. -/
def interpret (line : String) (context : Value)
    (cfg : DRLConfig := DEFAULT_CONFIG) : Except Err Value :=
  let run : Except Err Value := do
    let parsed ← parse_line line cfg
    evaluate parsed context cfg line
  match run with
  | .ok v => .ok v
  | .error e =>
    if e.isDRL then .error e
    else
      match e with
      | .py .keyErr msg =>
        .error (.drl .ref ("Reference error: " ++ msg) line (-1)
          "Key not found in context")
      | _ =>
        .error (.drl .base ("Unexpected error: " ++ errStr e) line (-1)
          ("Error type: " ++ pyErrTypeName e))

/-- Python `str.rstrip()` (whitespace strip at the right end). -/
def pyRStrip (s : String) : String :=
  String.mk ((s.data.reverse.dropWhile pyIsSpace).reverse)

/-- language.py 1081-1092: find the start of the matching closing tag of a
percent-expression block, counting nested open tags; `none` when the block
never closes. -/
def scanBlockEnd (chars : List Char) : Nat → Nat → Nat → Option Nat
  | 0, _, _ => Option.none
  | fuel + 1, i, depth =>
    if i < chars.length then
      let two := String.mk ((chars.drop i).take 2)
      if two == "\x7b%" then scanBlockEnd chars fuel (i + 2) (depth + 1)
      else if two == "%\x7d" then
        if depth == 1 then some i
        else scanBlockEnd chars fuel (i + 2) (depth - 1)
      else scanBlockEnd chars fuel (i + 1) depth
    else Option.none

/-- language.py 1160-1183: scan a bare reference path inside a template:
runs of the (multi-character) key delimiter join the path, a stop
character ends it.  The `key_delimiter[0]` subscript raises `IndexError`
for an empty delimiter in Python, mirrored here (a constructed config
rules it out). -/
def interpBareScan (cfg : DRLConfig) (chars : List Char) :
    Nat → Nat → List Char → Except Err (String × Nat)
  | 0, i, acc => .ok (String.mk acc, i)
  | fuel + 1, i, acc =>
    match cAt chars i with
    | Option.none => .ok (String.mk acc, i)
    | some c =>
      match cfg.key_delimiter.data with
      | [] => .error (.py .other "IndexError: string index out of range")
      | kd0 :: _ =>
        if c == kd0 && cfg.key_delimiter.data.isPrefixOf (chars.drop i) then
          interpBareScan cfg chars fuel (i + cfg.key_delimiter.length)
            (acc ++ cfg.key_delimiter.data)
        else if (" \t\n\r(),\x27\x22+-*/%^<>=![]\x7b\x7d;".data ++
            cfg.ref_indicator.data).contains c then
          .ok (String.mk acc, i)
        else interpBareScan cfg chars fuel (i + 1) (acc ++ [c])

/-- The opening delimiter the interpolation layer re-attaches for the
passthrough reconstruction (language.py 1190). -/
def delimOpenOf (behavior : String) : String :=
  if behavior == "required" then "("
  else if behavior == "optional" then "["
  else "\x7b"

/-- The main loop of `interpolate` (language.py 1068-1215), producing the
list of literal/substituted pieces that the source accumulates in
`result`. -/
def interpLoop (context : Value) (cfg : DRLConfig) (template : String)
    (chars : List Char) : Nat → Nat → Except Err (List String)
  | 0, _ => .error (.py .other "interpolate fuel exhausted")
  | fuel + 1, i =>
    match cAt chars i with
    | Option.none => .ok []
    | some c =>
      if String.mk ((chars.drop i).take 2) == "\x7b%" then
        let startPos := i
        let i1 := skipSpaces chars (chars.length + 1) (i + 2)
        match scanBlockEnd chars (chars.length + 1) i1 1 with
        | Option.none =>
          .error (.drl .syn
            "Unterminated expression block: expected closing \x27%\x7d\x27"
            template startPos
            "Expression block started with \x27\x7b%\x27 but never closed")
        | some iend =>
          let expr := pyRStrip (String.mk ((chars.drop i1).take (iend - i1)))
          match interpret expr context cfg with
          | .ok v => do
            let rest ← interpLoop context cfg template chars fuel (iend + 2)
            pure ((match v with | .none => "" | _ => pyStr v) :: rest)
          | .error e =>
            if e.isDRL then .error e
            else
              .error (.drl .base ("Error evaluating expression: " ++ errStr e)
                template startPos ("Expression: " ++ expr))
      else if String.mk ((chars.drop i).take cfg.ref_indicator.length) ==
          cfg.ref_indicator then
        let startPos := i
        let iAfter := i + cfg.ref_indicator.length
        let bhc : String × Option Char × Nat :=
          match cAt chars iAfter with
          | some '(' => ("required", some ')', iAfter + 1)
          | some '[' => ("optional", some ']', iAfter + 1)
          | some '\x7b' => ("passthrough", some '\x7d', iAfter + 1)
          | _ => ("required", Option.none, iAfter)
        let scanned : Except Err (String × Nat × Option Char) :=
          match bhc with
          | (_, some cd, i2) =>
            match scanUntil chars cd (chars.length + 1) i2 [] with
            | Option.none =>
              .error (.drl .syn
                ("Unterminated reference: expected closing \x27" ++
                  String.mk [cd] ++ "\x27")
                template startPos
                ("Reference started at position " ++ toString startPos ++
                  " but never closed"))
            | some (raw, i3) => .ok (raw, i3, some cd)
          | (_, Option.none, i2) =>
            match interpBareScan cfg chars (chars.length + 1) i2 [] with
            | .ok (raw, i3) => .ok (raw, i3, Option.none)
            | .error e => .error e
        match bhc, scanned with
        | _, .error e => .error e
        | (behavior, _, _), .ok (raw, i3, cdo) =>
          let refPath := pyStrip raw
          if refPath != "" then
            let originalRef :=
              match cdo with
              | some cd =>
                cfg.ref_indicator ++ delimOpenOf behavior ++ refPath ++ String.mk [cd]
              | Option.none => cfg.ref_indicator ++ refPath
            match resolve_reference refPath context cfg template startPos behavior
                originalRef with
            | .ok v => do
              let rest ← interpLoop context cfg template chars fuel i3
              pure ((match v with | .none => "" | _ => pyStr v) :: rest)
            | .error e => .error e
          else do
            let rest ← interpLoop context cfg template chars fuel i3
            pure (cfg.ref_indicator :: rest)
      else do
        let rest ← interpLoop context cfg template chars fuel (i + 1)
        pure (String.mk [c] :: rest)

/-- `interpolate` (language.py 1022-1217): scan the template, substituting
percent-expression blocks and references, and join the pieces.  The result
is always a string: the function has no whole-template type-preservation
branch. -/
def interpolate (template : String) (context : Value)
    (cfg : DRLConfig := DEFAULT_CONFIG) : Except Err String := do
  let pieces ← interpLoop context cfg template template.data
    (template.data.length + 1) 0
  pure (String.join pieces)

/-- A value of the `templates` argument of `interpolate_dict`: strings are
templates, mappings and sequences recurse, anything else passes through. -/
inductive Template where
  | s : String → Template
  | d : List (String × Template) → Template
  | l : List Template → Template
  | v : Value → Template

mutual
/-- The plain Python value a `Template` denotes when passed through
without interpolation. -/
def templateToValue : Template → Value
  | .s sv => .str sv
  | .v v => v
  | .d pairs => .dict (templatePairs pairs)
  | .l items => .list (templateItems items)

def templatePairs : List (String × Template) → List (String × Value)
  | [] => []
  | (k, t) :: rest => (k, templateToValue t) :: templatePairs rest

def templateItems : List Template → List Value
  | [] => []
  | t :: rest => templateToValue t :: templateItems rest
end

mutual
/-- Structural size of a template, budgeting the fuel of the
`interpolate_dict` recursion. -/
def templateSize : Template → Nat
  | .s _ => 1
  | .v _ => 1
  | .d pairs => 1 + templatePairsSize pairs
  | .l items => 1 + templateItemsSize items

/-- Structural size of a keyed template list. -/
def templatePairsSize : List (String × Template) → Nat
  | [] => 0
  | (_, t) :: rest => 1 + templateSize t + templatePairsSize rest

/-- Structural size of a template list. -/
def templateItemsSize : List Template → Nat
  | [] => 0
  | t :: rest => 1 + templateSize t + templateItemsSize rest
end

mutual
/-- The per-key body of `interpolate_dict` (language.py 997-1017):
recurse into dicts, map over lists interpolating only string items (other
items, nested dicts included, pass through unchanged), interpolate string
values, pass anything else through; with `drop_empty` set, keys whose
value `is None` are omitted.  (Fuel budgets the nested recursion;
`interpolate_dict` supplies more than it can consume.) -/
def interpDictGo (context : Value) (cfg : DRLConfig) :
    Nat → List (String × Template) → Except Err (List (String × Value))
  | 0, _ => .error (.py .other "interpolate_dict fuel exhausted")
  | _fuel + 1, [] => .ok []
  | fuel + 1, (key, tmpl) :: rest => do
    let value ←
      match tmpl with
      | .d sub => do
        let m ← interpDictGo context cfg fuel sub
        pure (Value.dict m)
      | .l items => do
        let vs ← interpListGo context cfg fuel items
        pure (Value.list vs)
      | .s sv => do
        let r ← interpolate sv context cfg
        pure (Value.str r)
      | .v v => pure v
    let restR ← interpDictGo context cfg fuel rest
    if !cfg.drop_empty || !(match value with | .none => true | _ => false) then
      pure ((key, value) :: restR)
    else
      pure restR

/-- The list comprehension of `interpolate_dict` (language.py 1004-1007). -/
def interpListGo (context : Value) (cfg : DRLConfig) :
    Nat → List Template → Except Err (List Value)
  | 0, _ => .error (.py .other "interpolate_dict fuel exhausted")
  | _fuel + 1, [] => .ok []
  | fuel + 1, item :: rest => do
    let v ←
      match item with
      | .s sv => do
        let r ← interpolate sv context cfg
        pure (Value.str r)
      | other => pure (templateToValue other)
    let vs ← interpListGo context cfg fuel rest
    pure (v :: vs)
end

/-- `interpolate_dict` (language.py 979-1019). -/
def interpolate_dict (templates : List (String × Template)) (context : Value)
    (cfg : DRLConfig := DEFAULT_CONFIG) : Except Err (List (String × Value)) :=
  interpDictGo context cfg (templatePairsSize templates + 1) templates

/-- Replace the value at a (dict-keyed) reference path inside a context by
applying `f` to it: the explicit-state image of mutating an object that is
aliased both by the context and by a resolved reference.  (List-index
paths are not needed by any statement below.) -/
def updateAtParts (f : Value → Value) : List String → Value → Value
  | [], v => f v
  | part0 :: rest, .dict d =>
    let part := pyStrip part0
    .dict (d.map (fun kv =>
      if kv.1 == part then (kv.1, updateAtParts f rest kv.2) else kv))
  | _ :: _, v => v

/-- Apply a permutation oracle to a list value (the image of
`random.shuffle` on the object, with the RNG draw abstracted). -/
def shuffleValue (perm : List Value → List Value) : Value → Value
  | .list xs => .list (perm xs)
  | v => v

mutual
/-- State-passing variant of `evaluate` for the context-mutation claim.
Python hands registry callables the context's own objects: the resolver
returns `value = value[part]` without copying (language.py 495) and
`execute` forwards the arguments unconverted (functions.py 607/614).  The
builtin `shuffle` entry is `random.shuffle` (functions.py 458), which
permutes its list argument **in place** and returns `None`; when the
argument expression is a reference token, the permuted object is the one
stored in the context at that path, modelled here by updating the context
there.  The RNG draw is abstracted as the `perm` parameter.  All other
modelled behaviour matches `evalP` (the `except (TypeError, ValueError)`
re-evaluation detour of the arithmetic branch, unreachable from every
statement below, is not replayed here). -/
def evalS (cfg : DRLConfig) (expr : String) (perm : List Value → List Value) :
    PElem → Value → Except Err (Value × Value)
  | .tok t, ctx => do
    let v ← evalP ctx cfg expr (.tok t)
    pure (v, ctx)
  | .l [.s "OPERATOR", opE, lE, rE], ctx => do
    let (lv, ctx1) ← evalS cfg expr perm lE ctx
    let (rv, ctx2) ← evalS cfg expr perm rE ctx1
    let v ← applyOperator opE lv rv expr
    pure (v, ctx2)
  | .l [.s "COMPARISON", opE, lE, rE], ctx => do
    let (lv, ctx1) ← evalS cfg expr perm lE ctx
    let (rv, ctx2) ← evalS cfg expr perm rE ctx1
    let v ← applyComparison opE lv rv expr
    pure (v, ctx2)
  | .l [.s "LOGICAL", opE, lE, rE], ctx => do
    let (lv, ctx1) ← evalS cfg expr perm lE ctx
    let (rv, ctx2) ← evalS cfg expr perm rE ctx1
    let v ← applyLogical opE lv rv expr
    pure (v, ctx2)
  | .l [.s "NOT", operand], ctx => do
    let (v, ctx1) ← evalS cfg expr perm operand ctx
    pure (.bool (!pyTruthy v), ctx1)
  | .l (.s fname :: rest), ctx => do
    let (args, ctx1) ← evalArgsS cfg expr perm rest ctx
    if fname == "shuffle" then
      match rest, args with
      | [.tok t], [.list _] =>
        if t.type_ == "REFERENCE" then
          pure (.none,
            updateAtParts (shuffleValue perm) (pySplit t.value cfg.key_delimiter) ctx1)
        else pure (.none, ctx1)
      | _, [.list _] => pure (.none, ctx1)
      | _, _ => .error (.py .typeErr "shuffle expects a mutable sequence")
    else do
      let v ← execute fname args cfg
      pure (v, ctx1)
  | .s sv, ctx => .ok (.str sv, ctx)
  | p, ctx => .ok (.raw p, ctx)

/-- Left-to-right argument evaluation threading the context state. -/
def evalArgsS (cfg : DRLConfig) (expr : String) (perm : List Value → List Value) :
    List PElem → Value → Except Err (List Value × Value)
  | [], ctx => .ok ([], ctx)
  | a :: rest, ctx => do
    let (v, ctx1) ← evalS cfg expr perm a ctx
    let (vs, ctx2) ← evalArgsS cfg expr perm rest ctx1
    pure (v :: vs, ctx2)
end

/-- `interpret` over the state-passing evaluator: the result together with
the context as it stands after the call. -/
def interpretS (perm : List Value → List Value) (line : String)
    (context : Value) (cfg : DRLConfig := DEFAULT_CONFIG) :
    Except Err (Value × Value) :=
  match parse_line line cfg with
  | .error e => .error e
  | .ok Option.none => .ok (.none, context)
  | .ok (some p) => evalS cfg line perm p context

/-- Parse shapes containing no function-call node (tokens and the four
marker nodes over such shapes). -/
inductive NoCall : PElem → Prop
  | tok (t : Token) : NoCall (.tok t)
  | notNode (x : PElem) : NoCall x → NoCall (.l [.s "NOT", x])
  | opNode (op : String) (l r : PElem) : NoCall l → NoCall r →
      NoCall (.l [.s "OPERATOR", .s op, l, r])
  | cmpNode (op : String) (l r : PElem) : NoCall l → NoCall r →
      NoCall (.l [.s "COMPARISON", .s op, l, r])
  | logNode (op : String) (l r : PElem) : NoCall l → NoCall r →
      NoCall (.l [.s "LOGICAL", .s op, l, r])

/-- Is the exception a `DRLReferenceError` or a `DRLTypeError` (the two
kinds a required reference failure raises)? -/
def Err.isRefOrTypeErr : Err → Bool
  | .drl .ref .. => true
  | .drl .type_ .. => true
  | _ => false

/-- Does the outcome carry a `DRLReferenceError` or `DRLTypeError`? -/
def isRefTypeErrResult : Except Err Value → Bool
  | .error e => e.isRefOrTypeErr
  | .ok _ => false

/-- Modelled from the spec (§4.3 success path): pure navigation of a
segment list against a context — each segment is trimmed, a mapping is
looked up by key, a sequence is indexed by a (possibly negative) integer
in range, and navigation fails anywhere else.  `some v` is what the spec
calls the path being present with stored value `v`; this definition is
compared against the code's `resolve_reference` in the C2 theorem. -/
def specWalk : List String → Value → Option Value
  | [], v => some v
  | part0 :: rest, v =>
    let part := pyStrip part0
    match v with
    | .dict d =>
      match dictGet d part with
      | some w => specWalk rest w
      | Option.none => Option.none
    | .list l =>
      match pyToInt part with
      | some i =>
        if -(l.length : Int) ≤ i ∧ i < (l.length : Int) then specWalk rest (pyIndex l i)
        else Option.none
      | Option.none => Option.none
    | _ => Option.none

/-- The context of claim C1's example:
`{a: {b: {c: "silver"}}, ptr: {sel: "b"}}`. -/
def c1Context : Value :=
  .dict [("a", .dict [("b", .dict [("c", .str "silver")])]),
         ("ptr", .dict [("sel", .str "b")])]

/-- The context for claim C8's example: `{a: [1, 2]}`. -/
def c8Context : Value := .dict [("a", .list [.int 1, .int 2])]

/-- C1 (code_bug): the spec and the repository's own tests
(tests/test_nested_references.py) require nested references to resolve
innermost-first, so that `$(a>$(ptr>sel)>c)` over
`{a:{b:{c:"silver"}}, ptr:{sel:"b"}}` yields `"silver"`.  The code has no
nested-reference handling anywhere: `tokenize` cuts the bracketed
reference at the *first* closing parenthesis (language.py 190-192), so
the reference token carries the path `a>$(ptr>sel`, and
`resolve_reference` then fails on the literal segment `$(ptr` with a
`DRLReferenceError` instead of returning `"silver"`. -/
theorem c1_nested_reference_code_bug :
    interpret "$(a>$(ptr>sel)>c)" c1Context =
      .error (.drl .ref "Reference key \x27$(ptr\x27 not found in context"
        "$(a>$(ptr>sel)>c)" (-1)
        "Failed at: a>$(ptr\n  Available keys: [\x27b\x27]") ∧
    interpret "$(a>$(ptr>sel)>c)" c1Context ≠ .ok (.str "silver") := by
  constructor
  · rfl
  · intro h
    have h2 : (Except.error (.drl .ref "Reference key \x27$(ptr\x27 not found in context"
        "$(a>$(ptr>sel)>c)" (-1)
        "Failed at: a>$(ptr\n  Available keys: [\x27b\x27]") : Except Err Value) =
        .ok (.str "silver") := h
    exact Except.noConfusion h2

/-- C3 (counterexample): the claim asserts that all binary operators,
`^` included, are left-associative; host arithmetic then forces
`10 - 3 - 2` to be `(10 - 3) - 2 = 5`.  The parser consumes
equal-precedence operators into the right subtree
(`parse_expression_with_precedence` recurses with `op_precedence + 1`
under a lower-binds-tighter table, language.py 610-618), so the code
groups to the right and returns `10 - (3 - 2) = 9`. -/
theorem c3_left_assoc_counterexample :
    interpret "10 - 3 - 2" (.dict []) = .ok (.int 9) ∧
    interpret "10 - 3 - 2" (.dict []) ≠ .ok (.int 5) := by
  constructor
  · rfl
  · intro h
    have h2 : (Except.ok (Value.int 9) : Except Err Value) = .ok (.int 5) := h
    simp at h2

/-- C3 (amended): evaluation matches host integer arithmetic under the
stated precedence table — `^` binds tighter than `*`, parenthesization
overrides precedence (`2 + 3 * 4 = 14`, `2 * 3 ^ 2 = 18`,
`(2 + 3) * 4 = 20`) — but every binary operator, `^` included, is
**right**-associative: same-precedence chains group to the right, as the
parse tree of `10 - 3 - 2` and the values `10 - (3 - 2) = 9` and
`2 ^ (3 ^ 2) = 512` show. -/
theorem c3_precedence_amended :
    interpret "2 + 3 * 4" (.dict []) = .ok (.int 14) ∧
    interpret "2 * 3 ^ 2" (.dict []) = .ok (.int 18) ∧
    interpret "(2 + 3) * 4" (.dict []) = .ok (.int 20) ∧
    interpret "10 - 3 - 2" (.dict []) = .ok (.int 9) ∧
    interpret "2 ^ 3 ^ 2" (.dict []) = .ok (.int 512) ∧
    parse_line "10 - 3 - 2" =
      .ok (some (.l [.s "OPERATOR", .s "-", .tok (mkToken "NUMBER" "10"),
        .l [.s "OPERATOR", .s "-", .tok (mkToken "NUMBER" "3"),
            .tok (mkToken "NUMBER" "2")]])) :=
  ⟨rfl, rfl, rfl, rfl, rfl, rfl⟩

/-- C4 (code_bug): the spec and the repository's own tests
(tests/test_interpolate.py, `TestTypePreservation`) require `interpolate`
to preserve the exact type when the whole template is a single reference
(`interpolate("$value", x7bvalue: 42x7d)` must be the integer `42`).  The
code has no such branch: every substitution is stringified
(`str(value)`, language.py 1205) and the function returns the joined
string, so the result here is the *string* `"42"`. -/
theorem c4_interpolate_always_string :
    interpolate "$value" (.dict [("value", .int 42)]) = .ok "42" ∧
    interpolate "Value: $value" (.dict [("value", .int 42)]) = .ok "Value: 42" :=
  ⟨rfl, rfl⟩

/-- C5 (code_bug): the spec and the repository's own tests
(tests/test_interpolate.py, `TestInterpolateDictDropEmpty`) require
`interpolate_dict` with `drop_empty` to drop keys whose resolved value is
null or the empty string — in particular an Optional-missing key — while
keeping present falsy values.  The code only drops values that are
literally `None` (language.py 1016), and `interpolate` never returns
`None` (a missing optional reference becomes `""`), so the
Optional-missing key survives with value `""` while the claim and the
tests say it is dropped. -/
theorem c5_drop_empty_keeps_optional_missing :
    interpolate_dict [("missing", .s "$[missing]"), ("zero", .s "$zero")]
        (.dict [("zero", .int 0)]) { drop_empty := true } =
      .ok [("missing", .str ""), ("zero", .str "0")] ∧
    interpolate_dict [("none_key", .v .none), ("flag", .v (.bool false))]
        (.dict []) { drop_empty := true } =
      .ok [("flag", .bool false)] :=
  ⟨rfl, rfl⟩

/-- C2 (counterexample): the claim says a missing `LiteralFallback`
reference comes back reconstructed with its delimiters
(`refIndicator + opening-delimiter + path + closing-delimiter`).  The
evaluator always reconstructs the bare form `refIndicator + path`
(language.py 736), so `interpret` on `$\x7bmissing\x7d` returns
`"$missing"`, not `"$\x7bmissing\x7d"` — exactly what
tests/test_optional_references.py::TestLiteralFallback expects. -/
theorem c2_literal_fallback_counterexample :
    interpret "$\x7bmissing\x7d" (.dict []) = .ok (.str "$missing") ∧
    interpret "$\x7bmissing\x7d" (.dict []) ≠ .ok (.str "$\x7bmissing\x7d") := by
  constructor
  · rfl
  · intro h
    have h2 : (Except.ok (Value.str "$missing") : Except Err Value) =
        .ok (.str "$\x7bmissing\x7d") := h
    simp at h2

/-- Reduction of an Except bind on a success, used to push hypotheses
through the do-blocks of the evaluator. -/
theorem exceptBind_ok {α β : Type _} (a : α) (f : α → Except Err β) :
    (Except.ok a : Except Err α) >>= f = f a := rfl

/-- Reduction of an Except bind on an error. -/
theorem exceptBind_err {α β : Type _} (e : Err) (f : α → Except Err β) :
    (Except.error e : Except Err α) >>= f = .error e := rfl

/-- Reduction of an Except map on a success. -/
theorem exceptMap_ok {α β : Type _} (f : α → β) (a : α) :
    f <$> (Except.ok a : Except Err α) = .ok (f a) := rfl

/-- Reduction of an Except map on an error. -/
theorem exceptMap_err {α β : Type _} (f : α → β) (e : Err) :
    f <$> (Except.error e : Except Err α) = .error e := rfl

/-- `pure` into the Except monad is `ok`. -/
theorem exceptPure_def {α : Type _} (a : α) : (pure a : Except Err α) = .ok a := rfl

/-- C6: whenever evaluation reaches a division or modulo node whose right
operand evaluates to a Python zero (`0`, `0.0` or `False` — the values the
source's `right == 0` test accepts), the evaluator raises `DRLTypeError`
with message "Division by zero" / "Modulo by zero" before the host
operation could produce any silent infinite or NaN-like result
(language.py 804-818). -/
theorem c6_div_mod_zero (opE lE rE : PElem) (context : Value)
    (cfg : DRLConfig) (expr : String) (op : String) (lv rv : Value)
    (hop : opE = .s op) (hdiv : op = "/" ∨ op = "%")
    (hl : evalP context cfg expr lE = .ok lv)
    (hr : evalP context cfg expr rE = .ok rv)
    (hz : pyEq rv (.int 0) = true) :
    evalP context cfg expr (.l [.s "OPERATOR", opE, lE, rE]) =
      .error (.drl .type_
        (if op = "/" then "Division by zero" else "Modulo by zero")
        expr (-1)
        (if op = "/" then "Cannot divide by zero"
         else "Cannot perform modulo with zero divisor")) := by
  subst hop
  rcases hdiv with h | h <;> subst h <;>
    simp [evalP, hl, hr, applyOperator, hz, exceptBind_ok, exceptBind_err]

/-- Witness for C6 at the concrete expression `1 / 0`. -/
theorem c6_div_mod_zero_witness :
    evalP (.dict []) DEFAULT_CONFIG "1 / 0"
      (.l [.s "OPERATOR", .s "/", .tok (mkToken "NUMBER" "1"),
           .tok (mkToken "NUMBER" "0")]) =
      .error (.drl .type_ "Division by zero" "1 / 0" (-1) "Cannot divide by zero") := by
  simpa using c6_div_mod_zero (.s "/") (.tok (mkToken "NUMBER" "1"))
    (.tok (mkToken "NUMBER" "0")) (.dict []) DEFAULT_CONFIG "1 / 0" "/"
    (.int 1) (.int 0) rfl (Or.inl rfl) rfl rfl rfl

/-- C7: logical `and`/`or` nodes are not short-circuiting: both operands
are always evaluated before the result is decided, so a failing right
operand aborts the whole evaluation with that error even when the left
operand alone already determines the logical result (language.py
857-866). -/
theorem c7_logical_no_short_circuit (opE lE rE : PElem) (context : Value)
    (cfg : DRLConfig) (expr : String) (lv : Value) (e : Err)
    (hl : evalP context cfg expr lE = .ok lv)
    (hr : evalP context cfg expr rE = .error e) :
    evalP context cfg expr (.l [.s "LOGICAL", opE, lE, rE]) = .error e := by
  simp [evalP, hl, hr, exceptBind_ok, exceptBind_err]

/-- Witness for C7 at the concrete expression `False and $(missing)`:
the left operand is falsy and already decides the `and`, yet the missing
required reference on the right aborts the evaluation. -/
theorem c7_logical_no_short_circuit_witness :
    evalP (.dict []) DEFAULT_CONFIG "False and $(missing)"
      (.l [.s "LOGICAL", .s "and", .tok (mkToken "BOOLEAN" "False"),
           .tok (mkToken "REFERENCE" "missing")]) =
      .error (.drl .ref "Reference key \x27missing\x27 not found in context"
        "False and $(missing)" (-1)
        "Failed at: missing\n  Dictionary is empty") ∧
    evalP (.dict []) DEFAULT_CONFIG "False and $(missing)"
      (.tok (mkToken "BOOLEAN" "False")) = .ok (.bool false) :=
  ⟨c7_logical_no_short_circuit (.s "and") (.tok (mkToken "BOOLEAN" "False"))
      (.tok (mkToken "REFERENCE" "missing")) (.dict []) DEFAULT_CONFIG
      "False and $(missing)" (.bool false) _ rfl rfl,
   rfl⟩

/-- Tokenizing from position `i` of an expression whose characters are all
whitespace yields no tokens, for any configuration: the whitespace skip is
the first test of the loop (language.py 158-160). -/
theorem tokLoop_all_space (cfg : DRLConfig) (orig : String) (chars : List Char)
    (hsp : ∀ c ∈ chars, pyIsSpace c = true) :
    ∀ fuel i, i + fuel = chars.length + 1 → i ≤ chars.length →
      tokLoop cfg orig chars fuel i = .ok [] := by
  intro fuel
  induction fuel with
  | zero => intro i hinv hle; omega
  | succ f ih =>
    intro i hinv hle
    by_cases hi : i < chars.length
    · have hget : chars[i]? = some chars[i] := List.getElem?_eq_getElem hi
      have hspace : pyIsSpace chars[i] = true :=
        hsp _ (List.getElem_mem hi)
      have hrec := ih (i + 1) (by omega) (by omega)
      simp only [tokLoop, cAt, hget, hspace, if_true]
      exact hrec
    · have hnone : chars[i]? = Option.none := by
        rw [List.getElem?_eq_none_iff]; omega
      simp [tokLoop, cAt, hnone]

/-- C9: for every input string consisting only of whitespace characters
(the empty string included) and any context and configuration, `tokenize`
yields an empty token list, `parse_line` returns `None`, `evaluate` of
`None` returns `None`, and `interpret` returns `None` without raising. -/
theorem c9_whitespace_only_interpret (line : String) (context : Value)
    (cfg : DRLConfig) (hsp : ∀ c ∈ line.data, pyIsSpace c = true) :
    tokenize line cfg = .ok [] ∧
    parse_line line cfg = .ok Option.none ∧
    evaluate Option.none context cfg line = .ok .none ∧
    interpret line context cfg = .ok .none := by
  have htok : tokenize line cfg = .ok [] :=
    tokLoop_all_space cfg line line.data hsp (line.data.length + 1) 0 (by omega)
      (by omega)
  have hparse : parse_line line cfg = .ok Option.none := by
    simp only [parse_line, htok, exceptBind_ok]
    rfl
  refine ⟨htok, hparse, rfl, ?_⟩
  simp [interpret, hparse, evaluate, exceptBind_ok]

/-- Witness for C9 at the concrete whitespace string " \t\n ". -/
theorem c9_whitespace_only_witness :
    interpret " \t\n " (.dict []) = .ok .none :=
  (c9_whitespace_only_interpret " \t\n " (.dict []) DEFAULT_CONFIG (by decide)).2.2.2

/-- C8 (counterexample): the claim says the supplied context is never
mutated, for every expression including registry-function calls such as
`shuffle`.  But the builtin `shuffle` is `random.shuffle`
(functions.py 458), which permutes its list argument in place, and the
argument it receives for `shuffle($a)` is the context's own list object;
in the state-passing model, under the RNG draw that reverses the list,
`interpret("shuffle($a)", {a: [1, 2]})` leaves the context changed to
`{a: [2, 1]}`. -/
theorem c8_context_mutation_counterexample :
    interpretS List.reverse "shuffle($a)" c8Context =
      .ok (.none, .dict [("a", .list [.int 2, .int 1])]) ∧
    Value.dict [("a", .list [.int 2, .int 1])] ≠ c8Context := by
  constructor
  · rfl
  · intro h
    simp [c8Context] at h

/-- C8 (amended): the pipeline itself never mutates the context — for
every parse shape without a function-call node, the state-passing
evaluator returns the context unchanged — but registry functions receive
the context's own objects, and the builtin `shuffle` permutes its list
argument in place, so `interpret("shuffle($a)", C)` can leave `C` with
the list at `a` reordered. -/
theorem c8_purity_amended :
    (∀ (p : PElem) (cfg : DRLConfig) (expr : String)
        (perm : List Value → List Value) (ctx v ctx2 : Value),
        NoCall p → evalS cfg expr perm p ctx = .ok (v, ctx2) → ctx2 = ctx) ∧
    interpretS List.reverse "shuffle($a)" c8Context =
      .ok (.none, .dict [("a", .list [.int 2, .int 1])]) := by
  constructor
  · intro p cfg expr perm ctx v ctx2 hnc
    induction hnc generalizing ctx v ctx2 with
    | tok t =>
      intro h
      cases he : evalP ctx cfg expr (.tok t) with
      | ok w =>
        simp only [evalS, he, exceptMap_ok] at h
        simp at h
        exact h.2.symm
      | error e => simp [evalS, he, exceptMap_err] at h
    | notNode x hx ihx =>
      intro h
      cases he : evalS cfg expr perm x ctx with
      | ok pr =>
        obtain ⟨w, ctx1⟩ := pr
        simp only [evalS, he, exceptBind_ok, exceptMap_ok, exceptPure_def] at h
        simp at h
        exact h.2 ▸ ihx ctx w ctx1 he
      | error e => simp [evalS, he, exceptBind_err, exceptMap_err] at h
    | opNode op l r hl hr ihl ihr =>
      intro h
      cases he1 : evalS cfg expr perm l ctx with
      | ok pr1 =>
        obtain ⟨lv, ctx1⟩ := pr1
        cases he2 : evalS cfg expr perm r ctx1 with
        | ok pr2 =>
          obtain ⟨rv, ctxm⟩ := pr2
          cases he3 : applyOperator (.s op) lv rv expr with
          | ok w =>
            simp only [evalS, he1, he2, he3, exceptBind_ok, exceptMap_ok,
              exceptPure_def] at h
            simp at h
            rw [h.2.symm]
            exact (ihr ctx1 rv ctxm he2).trans (ihl ctx lv ctx1 he1)
          | error e =>
            simp [evalS, he1, he2, he3, exceptBind_ok, exceptBind_err,
              exceptMap_ok, exceptMap_err] at h
        | error e =>
          simp [evalS, he1, he2, exceptBind_ok, exceptBind_err, exceptMap_err] at h
      | error e => simp [evalS, he1, exceptBind_err, exceptMap_err] at h
    | cmpNode op l r hl hr ihl ihr =>
      intro h
      cases he1 : evalS cfg expr perm l ctx with
      | ok pr1 =>
        obtain ⟨lv, ctx1⟩ := pr1
        cases he2 : evalS cfg expr perm r ctx1 with
        | ok pr2 =>
          obtain ⟨rv, ctxm⟩ := pr2
          cases he3 : applyComparison (.s op) lv rv expr with
          | ok w =>
            simp only [evalS, he1, he2, he3, exceptBind_ok, exceptMap_ok,
              exceptPure_def] at h
            simp at h
            rw [h.2.symm]
            exact (ihr ctx1 rv ctxm he2).trans (ihl ctx lv ctx1 he1)
          | error e =>
            simp [evalS, he1, he2, he3, exceptBind_ok, exceptBind_err,
              exceptMap_ok, exceptMap_err] at h
        | error e =>
          simp [evalS, he1, he2, exceptBind_ok, exceptBind_err, exceptMap_err] at h
      | error e => simp [evalS, he1, exceptBind_err, exceptMap_err] at h
    | logNode op l r hl hr ihl ihr =>
      intro h
      cases he1 : evalS cfg expr perm l ctx with
      | ok pr1 =>
        obtain ⟨lv, ctx1⟩ := pr1
        cases he2 : evalS cfg expr perm r ctx1 with
        | ok pr2 =>
          obtain ⟨rv, ctxm⟩ := pr2
          cases he3 : applyLogical (.s op) lv rv expr with
          | ok w =>
            simp only [evalS, he1, he2, he3, exceptBind_ok, exceptMap_ok,
              exceptPure_def] at h
            simp at h
            rw [h.2.symm]
            exact (ihr ctx1 rv ctxm he2).trans (ihl ctx lv ctx1 he1)
          | error e =>
            simp [evalS, he1, he2, he3, exceptBind_ok, exceptBind_err,
              exceptMap_ok, exceptMap_err] at h
        | error e =>
          simp [evalS, he1, he2, exceptBind_ok, exceptBind_err, exceptMap_err] at h
      | error e => simp [evalS, he1, exceptBind_err, exceptMap_err] at h
  · rfl

/-- Witness for C8's amended purity statement at a concrete call-free
tree: evaluating the literal `7` leaves the context untouched. -/
theorem c8_purity_amended_witness :
    evalS DEFAULT_CONFIG "7" (fun l => l) (.tok (mkToken "NUMBER" "7"))
      (.dict []) = .ok (.int 7, .dict []) ∧
    ((Value.dict []) = (Value.dict [])) :=
  ⟨rfl,
   c8_purity_amended.1 (.tok (mkToken "NUMBER" "7")) DEFAULT_CONFIG "7"
     (fun l => l) (.dict []) (.int 7) (.dict []) (NoCall.tok _) rfl⟩

/-- A pattern that never occurs in a list is not a prefix of any of its
suffixes. -/
theorem subAt_false_no_match (pat : List Char) :
    ∀ l, subAt pat l = false → ∀ j, pat.isPrefixOf (l.drop j) = false := by
  intro l
  induction l with
  | nil =>
    intro hs j
    cases pat with
    | nil => simp [subAt] at hs
    | cons c p => simp
  | cons c rest ih =>
    intro hs j
    have hs2 : pat.isPrefixOf (c :: rest) = false ∧ subAt pat rest = false := by
      have := hs
      simp only [subAt, Bool.or_eq_false_iff] at this
      exact this
    cases j with
    | zero => simpa using hs2.1
    | succ j2 => simpa using ih hs2.2 j2

/-- If taking `p.length` characters yields `p` itself, `p` is a prefix. -/
theorem take_eq_isPrefixOf :
    ∀ (p l : List Char), l.take p.length = p → p.isPrefixOf l = true := by
  intro p
  induction p with
  | nil => intro l _; simp [List.isPrefixOf]
  | cons c p2 ih =>
    intro l h
    cases l with
    | nil => simp at h
    | cons d l2 =>
      simp only [List.length_cons, List.take_succ_cons, List.cons.injEq] at h
      obtain ⟨h1, h2⟩ := h
      subst h1
      simp [List.isPrefixOf, ih l2 h2]

/-- Folding string append over the singleton pieces of a character list
appends that list. -/
theorem foldl_append_singletons :
    ∀ (l : List Char) (acc : String),
      (l.map (fun c => String.mk [c])).foldl (· ++ ·) acc = acc ++ String.mk l := by
  intro l
  induction l with
  | nil =>
    intro acc
    obtain ⟨d⟩ := acc
    show String.mk d = String.mk (d ++ [])
    rw [List.append_nil]
  | cons c rest ih =>
    intro acc
    obtain ⟨d⟩ := acc
    show (rest.map (fun c => String.mk [c])).foldl (· ++ ·)
        (String.mk d ++ String.mk [c]) = String.mk (d ++ (c :: rest))
    rw [ih (String.mk d ++ String.mk [c])]
    show String.mk ((d ++ [c]) ++ rest) = String.mk (d ++ (c :: rest))
    rw [List.append_assoc]
    rfl

/-- The interpolation loop over a template free of expression blocks and
reference indicators copies every remaining character literally. -/
theorem interpLoop_literal (context : Value) (cfg : DRLConfig)
    (template : String) (chars : List Char)
    (hb : subAt "\x7b%".data chars = false)
    (hr : subAt cfg.ref_indicator.data chars = false) :
    ∀ fuel i, i + fuel = chars.length + 1 → i ≤ chars.length →
      interpLoop context cfg template chars fuel i =
        .ok ((chars.drop i).map (fun c => String.mk [c])) := by
  intro fuel
  induction fuel with
  | zero => intro i hinv hle; omega
  | succ f ih =>
    intro i hinv hle
    by_cases hi : i < chars.length
    · have hget : chars[i]? = some chars[i] := List.getElem?_eq_getElem hi
      have hnb1 : (String.mk ((chars.drop i).take 2) == "\x7b%") = false := by
        cases hcl : (String.mk ((chars.drop i).take 2) == "\x7b%") with
        | false => rfl
        | true =>
          have heq : String.mk ((chars.drop i).take 2) = "\x7b%" := eq_of_beq hcl
          have hdata : (chars.drop i).take 2 = "\x7b%".data :=
            congrArg String.data heq
          have hpre := take_eq_isPrefixOf "\x7b%".data (chars.drop i) hdata
          rw [subAt_false_no_match _ _ hb i] at hpre
          exact Bool.noConfusion hpre
      have hnb2 : (String.mk ((chars.drop i).take cfg.ref_indicator.length) ==
          cfg.ref_indicator) = false := by
        cases hcl : (String.mk ((chars.drop i).take cfg.ref_indicator.length) ==
            cfg.ref_indicator) with
        | false => rfl
        | true =>
          have heq : String.mk ((chars.drop i).take cfg.ref_indicator.length) =
              cfg.ref_indicator := eq_of_beq hcl
          have hdata : (chars.drop i).take cfg.ref_indicator.data.length =
              cfg.ref_indicator.data := congrArg String.data heq
          have hpre := take_eq_isPrefixOf cfg.ref_indicator.data (chars.drop i) hdata
          rw [subAt_false_no_match _ _ hr i] at hpre
          exact Bool.noConfusion hpre
      have hrec := ih (i + 1) (by omega) (by omega)
      have hdropc : chars.drop i = chars[i] :: chars.drop (i + 1) :=
        List.drop_eq_getElem_cons hi
      simp only [interpLoop, cAt, hget, hnb1, hnb2, Bool.false_eq_true, if_false,
        hrec, exceptBind_ok, exceptMap_ok, exceptPure_def]
      rw [hdropc]
      simp
      conv_rhs => rw [List.drop_eq_getElem_cons (by simpa using hi)]
      simp
    · have hnone : chars[i]? = Option.none := by
        rw [List.getElem?_eq_none_iff]; omega
      have hdrop : chars.drop i = [] := List.drop_eq_nil_of_le (by omega)
      simp [interpLoop, cAt, hnone, hdrop]

/-- C10: `interpolate` is the identity on purely literal templates: when
the template contains neither the configured reference indicator nor the
two-character sequence for opening an expression block as a substring,
every character is copied verbatim and no error is raised. -/
theorem c10_interpolate_literal_identity (template : String) (context : Value)
    (cfg : DRLConfig)
    (hb : subAt "\x7b%".data template.data = false)
    (hr : subAt cfg.ref_indicator.data template.data = false) :
    interpolate template context cfg = .ok template := by
  have hloop := interpLoop_literal context cfg template template.data hb hr
    (template.data.length + 1) 0 (by omega) (by omega)
  have hjoin : String.join ((template.data).map (fun c => String.mk [c])) =
      template := by
    show (template.data.map (fun c => String.mk [c])).foldl (· ++ ·) "" = template
    rw [foldl_append_singletons]
    rfl
  simp only [interpolate, hloop, exceptBind_ok, exceptMap_ok, exceptPure_def,
    List.drop_zero, hjoin]

/-- Witness for C10 at a concrete literal template. -/
theorem c10_interpolate_literal_witness :
    interpolate "Hello, world!" (.dict []) DEFAULT_CONFIG = .ok "Hello, world!" :=
  c10_interpolate_literal_identity "Hello, world!" (.dict []) DEFAULT_CONFIG
    (by decide) (by decide)

/-- When the spec-side walk finds a stored value, the code's
`resolveParts` returns exactly that value for every behavior string. -/
theorem resolveParts_of_specWalk_some (cfg : DRLConfig) (expr : String)
    (pos : Int) (behavior : String) (orig : String) :
    ∀ (parts : List String) (value : Value) (path : List String) (v : Value),
      specWalk parts value = some v →
      resolveParts cfg expr pos behavior orig parts value path = .ok v := by
  intro parts
  induction parts with
  | nil =>
    intro value path v h
    simp only [specWalk, Option.some.injEq] at h
    simp [resolveParts, h]
  | cons p rest ih =>
    intro value path v h
    cases value with
    | dict d =>
      simp only [specWalk] at h
      cases hg : dictGet d (pyStrip p) with
      | some w =>
        simp only [hg] at h
        simp only [resolveParts, hg]
        exact ih w (path ++ [pyStrip p]) v h
      | none => simp only [hg] at h; exact Option.noConfusion h
    | list l =>
      simp only [specWalk] at h
      cases hti : pyToInt (pyStrip p) with
      | some idx =>
        simp only [hti] at h
        by_cases hrange : -(l.length : Int) ≤ idx ∧ idx < (l.length : Int)
        · rw [if_pos hrange] at h
          simp only [resolveParts, hti, if_pos hrange]
          exact ih (pyIndex l idx) (path ++ [pyStrip p]) v h
        · rw [if_neg hrange] at h; exact Option.noConfusion h
      | none => simp only [hti] at h; exact Option.noConfusion h
    | none => simp [specWalk] at h
    | bool b => simp [specWalk] at h
    | int n => simp [specWalk] at h
    | float q => simp [specWalk] at h
    | str sv => simp [specWalk] at h
    | raw rp => simp [specWalk] at h

/-- When the spec-side walk fails, the code's `resolveParts` returns
`None` for `optional`, the caller's original text for `passthrough`, and
a `DRLReferenceError` or `DRLTypeError` for `required`. -/
theorem resolveParts_of_specWalk_none (cfg : DRLConfig) (expr : String)
    (pos : Int) (orig : String) :
    ∀ (parts : List String) (value : Value) (path : List String),
      specWalk parts value = Option.none →
      resolveParts cfg expr pos "optional" orig parts value path = .ok .none ∧
      resolveParts cfg expr pos "passthrough" orig parts value path =
        .ok (.str orig) ∧
      isRefTypeErrResult
        (resolveParts cfg expr pos "required" orig parts value path) = true := by
  intro parts
  induction parts with
  | nil => intro value path h; simp [specWalk] at h
  | cons p rest ih =>
    intro value path h
    cases value with
    | dict d =>
      simp only [specWalk] at h
      cases hg : dictGet d (pyStrip p) with
      | some w =>
        simp only [hg] at h
        have ihw := ih w (path ++ [pyStrip p]) h
        refine ⟨?_, ?_, ?_⟩
        · simp only [resolveParts, hg]; exact ihw.1
        · simp only [resolveParts, hg]; exact ihw.2.1
        · simp only [resolveParts, hg]; exact ihw.2.2
      | none =>
        refine ⟨?_, ?_, ?_⟩
        · simp only [resolveParts, hg]; rfl
        · simp only [resolveParts, hg]; rfl
        · simp only [isRefTypeErrResult, resolveParts, hg]; rfl
    | list l =>
      simp only [specWalk] at h
      cases hti : pyToInt (pyStrip p) with
      | some idx =>
        simp only [hti] at h
        by_cases hrange : -(l.length : Int) ≤ idx ∧ idx < (l.length : Int)
        · rw [if_pos hrange] at h
          have ihw := ih (pyIndex l idx) (path ++ [pyStrip p]) h
          refine ⟨?_, ?_, ?_⟩
          · simp only [resolveParts, hti, if_pos hrange]; exact ihw.1
          · simp only [resolveParts, hti, if_pos hrange]; exact ihw.2.1
          · simp only [resolveParts, hti, if_pos hrange]; exact ihw.2.2
        · refine ⟨?_, ?_, ?_⟩
          · simp only [resolveParts, hti, if_neg hrange]; rfl
          · simp only [resolveParts, hti, if_neg hrange]; rfl
          · simp only [isRefTypeErrResult, resolveParts, hti, if_neg hrange]
            rfl
      | none =>
        refine ⟨?_, ?_, ?_⟩
        · simp only [resolveParts, hti]; rfl
        · simp only [resolveParts, hti]; rfl
        · simp only [isRefTypeErrResult, resolveParts, hti]
          rfl
    | none => exact ⟨rfl, rfl, rfl⟩
    | bool b => exact ⟨rfl, rfl, rfl⟩
    | int n => exact ⟨rfl, rfl, rfl⟩
    | float q => exact ⟨rfl, rfl, rfl⟩
    | str sv => exact ⟨rfl, rfl, rfl⟩
    | raw rp => exact ⟨rfl, rfl, rfl⟩

/-- C2 (amended): with the default configuration, a reference path that
the spec-side navigation (`specWalk`) finds present resolves, under every
behavior, to the exact stored value unchanged in type; an absent path
resolves to `None` under `optional`, raises a `DRLReferenceError` or
`DRLTypeError` under `required`, and under `passthrough` returns the
caller's `original_ref` text — which the evaluator always reconstructs as
`refIndicator + path` (the bare form), not with the delimiters of the
written form. -/
theorem c2_resolve_behaviors (reference : String) (context : Value)
    (expr orig : String) (pos : Int) :
    (∀ v, specWalk (pySplit reference ">") context = some v →
      (resolve_reference reference context DEFAULT_CONFIG expr pos "required"
          orig = .ok v ∧
       resolve_reference reference context DEFAULT_CONFIG expr pos "optional"
          orig = .ok v ∧
       resolve_reference reference context DEFAULT_CONFIG expr pos "passthrough"
          orig = .ok v)) ∧
    (specWalk (pySplit reference ">") context = Option.none →
      (resolve_reference reference context DEFAULT_CONFIG expr pos "optional"
          orig = .ok .none ∧
       resolve_reference reference context DEFAULT_CONFIG expr pos "passthrough"
          orig = .ok (.str orig) ∧
       isRefTypeErrResult (resolve_reference reference context DEFAULT_CONFIG
          expr pos "required" orig) = true)) := by
  constructor
  · intro v h
    refine ⟨?_, ?_, ?_⟩ <;>
      exact resolveParts_of_specWalk_some DEFAULT_CONFIG expr pos _ orig
        (pySplit reference ">") context [] v h
  · intro h
    exact resolveParts_of_specWalk_none DEFAULT_CONFIG expr pos orig
      (pySplit reference ">") context [] h

/-- Witness for C2's amended statement at concrete present and absent
paths. -/
theorem c2_resolve_behaviors_witness :
    resolve_reference "a>b" (.dict [("a", .dict [("b", .int 7)])])
      DEFAULT_CONFIG "" (-1) "optional" "$a>b" = .ok (.int 7) ∧
    resolve_reference "a>x" (.dict [("a", .dict [("b", .int 7)])])
      DEFAULT_CONFIG "" (-1) "passthrough" "$a>x" = .ok (.str "$a>x") :=
  ⟨((c2_resolve_behaviors "a>b" (.dict [("a", .dict [("b", .int 7)])])
      "" "$a>b" (-1)).1 (.int 7) rfl).2.1,
   ((c2_resolve_behaviors "a>x" (.dict [("a", .dict [("b", .int 7)])])
      "" "$a>x" (-1)).2 rfl).2.1⟩

end DRL
